import Mathlib

/-!
Verification development for the GAP agriculture MCP server.

The definitions below are a shallow embedding of the TypeScript source:

* `src/gap-client.ts` — the GAP API client.  Its `getMeasurement` method
  fetches a raw ensemble response and aggregates it into one record per
  calendar day (grouping by date, averaging all numeric values).  The HTTP
  fetch itself is I/O; we embed the outcome of the fetch as the
  `UpstreamOutcome` type and the pure transformation as `transformRaw`.
* `src/index.ts` — the four MCP tool handlers (`get_weather_forecast`,
  `get_farming_advisory`, `get_planting_recommendation`,
  `get_irrigation_advisory`).  Each handler is embedded as a pure function
  of its parameters, the header-derived fallback coordinates, the
  configuration flag, and the upstream outcome; the returned pair carries
  the tool result together with the `days` argument that was passed to the
  GAP client (`none` when the client was never invoked).

JavaScript numbers are embedded as rationals (`ℚ`); number-to-string
interpolation (`${x}`) is embedded as `toString`, and `Number.toFixed`
as decimal rounding with ties toward positive infinity, matching the
ECMAScript specification of `toFixed` on exact values.
-/

namespace GapMcp

/-- A JSON value that can appear as an attribute of a GAP data point:
a number, a string, or an array (ensemble forecast members). -/
inductive JsonVal where
  | num (q : ℚ)
  | str (s : String)
  | arr (elems : List JsonVal)

/-- One raw data point from the GAP API (`GAPDataPoint` in `gap-client.ts`):
an ISO datetime plus dynamic attributes.  The `datetime` key of the JS
object is the `datetime` field; all remaining keys are the `attrs`
association list (JS object keys are unique and ordered). -/
structure GAPDataPoint where
  datetime : String
  attrs : List (String × JsonVal)

/-- GeoJSON geometry of a raw result (`geometry` in `gap-client.ts`);
`coordinates` is `[longitude, latitude]`. -/
structure GAPGeometry where
  type : String
  coordinates : List ℚ

/-- One entry of the raw response's `results` array. -/
structure GAPRawResult where
  geometry : GAPGeometry
  data : List GAPDataPoint

/-- Raw response from the GAP API (`GAPRawResponse`); the unused
`metadata` field is omitted because the transformation never reads it. -/
structure GAPRawResponse where
  results : List GAPRawResult

/-- Aggregated daily record (`GAPMeasurementResult`): date, coordinates,
and the averaged numeric attributes (the remaining keys of the JS
object, in insertion order). -/
structure GAPMeasurementResult where
  date : String
  lat : ℚ
  lon : ℚ
  attrs : List (String × ℚ)
deriving DecidableEq, Repr

/-- Processed response (`GAPResponse`): daily records, a count, and the
always-`null` pagination links. -/
structure GAPResponse where
  results : List GAPMeasurementResult
  count : ℕ
  next : Option String
  previous : Option String
deriving DecidableEq, Repr

/-- `dataPoint.datetime.split('T')[0]` — the calendar date of a sample:
the prefix of the ISO datetime before the first `T`. -/
def dateOf (dp : GAPDataPoint) : String :=
  ⟨dp.datetime.data.takeWhile (fun c => c ≠ 'T')⟩

/-- Insertion into a JS `Map`/`Set` key list: append the key if absent. -/
def insertKey (acc : List String) (x : String) : List String :=
  if x ∈ acc then acc else acc ++ [x]

/-- The keys of `groupedByDate`, in first-occurrence order: each data
point's date is inserted into the map as it is scanned. -/
def mapKeys (data : List GAPDataPoint) : List String :=
  data.foldl (fun acc dp => insertKey acc (dateOf dp)) []

/-- The bucket of `groupedByDate` for date `d`: the data points whose
date is `d`, in their original order. -/
def bucketOf (data : List GAPDataPoint) (d : String) : List GAPDataPoint :=
  data.filter (fun dp => dateOf dp == d)

/-- `Object.keys(dp).forEach(key => { if (key !== 'datetime') attributes.add(key) })`:
insert every non-`datetime` key of one data point into the attribute set. -/
def addAttrs (acc : List String) (dp : GAPDataPoint) : List String :=
  dp.attrs.foldl (fun a kv => if kv.1 = "datetime" then a else insertKey a kv.1) acc

/-- The `attributes` set of a bucket, in insertion order: all unique
attribute names across the bucket's data points. -/
def attrNames (dps : List GAPDataPoint) : List String :=
  dps.foldl addAttrs []

/-- The numeric values contributed by one attribute value: an array is
flattened keeping only its numeric elements, a number contributes itself,
anything else is skipped. -/
def numsOfVal : JsonVal → List ℚ
  | JsonVal.num q => [q]
  | JsonVal.arr es =>
      es.filterMap (fun e => match e with | JsonVal.num q => some q | _ => none)
  | JsonVal.str _ => []

/-- The numeric values one data point contributes for attribute `attr`
(`dp[attr]` is `undefined` when the key is absent, contributing nothing). -/
def dpNums (dp : GAPDataPoint) (attr : String) : List ℚ :=
  match dp.attrs.lookup attr with
  | some v => numsOfVal v
  | none => []

/-- `allValues` for one attribute of a bucket: every data point's numeric
contributions, pushed in scan order. -/
def collectVals (dps : List GAPDataPoint) (attr : String) : List ℚ :=
  dps.foldl (fun acc dp => acc ++ dpNums dp attr) []

/-- `if (allValues.length > 0) transformed[attr] = sum / length` — the
aggregated value of one attribute, or `none` when no numeric value was
collected (the attribute is then omitted from the record). -/
def aggValue (dps : List GAPDataPoint) (attr : String) : Option ℚ :=
  let allValues := collectVals dps attr
  if 0 < allValues.length then
    some (allValues.sum / (allValues.length : ℚ))
  else none

/-- The aggregated record for one date bucket: `{date, lat, lon}` plus
one entry per attribute that collected at least one numeric value. -/
def aggregateBucket (lat lon : ℚ) (date : String) (dps : List GAPDataPoint) :
    GAPMeasurementResult :=
  { date := date, lat := lat, lon := lon,
    attrs := (attrNames dps).filterMap
      (fun attr => (aggValue dps attr).map (fun q => (attr, q))) }

/-- The comparator of `transformedResults.sort((a, b) => a.date.localeCompare(b.date))`. -/
def byDateLe (a b : GAPMeasurementResult) : Prop := a.date ≤ b.date

instance : DecidableRel byDateLe :=
  fun a b => inferInstanceAs (Decidable (a.date ≤ b.date))

/-- The data-transformation section of `getMeasurement` for one result
group: group the data points by date, aggregate each bucket, and sort the
records chronologically. -/
def transformData (lat lon : ℚ) (data : List GAPDataPoint) :
    List GAPMeasurementResult :=
  List.insertionSort byDateLe
    ((mapKeys data).map (fun d => aggregateBucket lat lon d (bucketOf data d)))

/-- The whole response transformation of `getMeasurement`: when the raw
`results` array is empty nothing is produced; otherwise only the first
result group is read, its GeoJSON coordinates are destructured as
`[lon, lat]`, and its data is aggregated. -/
def transformRaw (raw : GAPRawResponse) : GAPResponse :=
  match raw.results with
  | [] => { results := [], count := 0, next := none, previous := none }
  | result :: _ =>
      let lon := result.geometry.coordinates.getD 0 0
      let lat := result.geometry.coordinates.getD 1 0
      let transformedResults := transformData lat lon result.data
      { results := transformedResults, count := transformedResults.length,
        next := none, previous := none }

/-- Outcome of the HTTP fetch inside `getMeasurement`: either a non-2xx
response (status, status text, body text) or a parsed JSON payload. -/
inductive UpstreamOutcome where
  | httpFailure (status : ℕ) (statusText : String) (bodyText : String)
  | success (raw : GAPRawResponse)

/-- `getMeasurement`: on a non-2xx response it throws
`GAP API error: ${status} ${statusText} - ${errorText}`; otherwise it
returns the transformed payload. -/
def getMeasurement : UpstreamOutcome → Except String GAPResponse
  | UpstreamOutcome.httpFailure status statusText bodyText =>
      Except.error ("GAP API error: " ++ (toString status ++ (" " ++
        (statusText ++ (" - " ++ bodyText)))))
  | UpstreamOutcome.success raw => Except.ok (transformRaw raw)

/-! ### Number formatting

`showQ` embeds JS template interpolation of a number; `fix1`/`fix0` embed
`Number.toFixed(1)`/`Number.toFixed(0)` (round to nearest, ties toward
positive infinity, per the ECMAScript `toFixed` algorithm on exact values). -/

/-- Template interpolation `${q}` of a number. -/
def showQ (q : ℚ) : String := toString q

/-- `q.toFixed(1)`. -/
def fix1 (q : ℚ) : String :=
  let n : ℤ := round (q * 10)
  let digits := toString n.natAbs
  let sign := if n < 0 then "-" else ""
  let padded := if digits.length < 2 then "0" ++ digits else digits
  sign ++ ((padded.dropRight 1) ++ ("." ++ padded.takeRight 1))

/-- `q.toFixed(0)`. -/
def fix0 (q : ℚ) : String := toString (round q : ℤ)

/-! ### Tool layer common pieces -/

/-- A tool call result: the caller-facing text and the error flag
(absent in JS on success, i.e. `false`). -/
structure ToolResult where
  text : String
  isError : Bool
deriving DecidableEq, Repr

/-- The error text returned when no coordinates can be resolved. -/
def missingCoordsText : String :=
  "ERROR: Latitude and longitude are required. Please provide coordinates either as parameters or configure them in the MCP server headers (X-Farm-Latitude, X-Farm-Longitude)."

/-- The error text returned when the GAP API token is not configured. -/
def tokenMissingText : String :=
  "ERROR: GAP API token is not configured. Please set the GAP_API_TOKEN environment variable."

/-- `latitude ?? defaultLatitude` — explicit parameter first, then the
header-derived fallback. -/
def resolveCoord (param fallback : Option ℚ) : Option ℚ :=
  param.orElse (fun _ => fallback)

/-- The `(${lat}, ${lon})` interior used by every coordinate mention. -/
def coordPair (lat lon : ℚ) : String := showQ lat ++ (", " ++ showQ lon)

/-- The supported crop enumeration (22 East African crops + generic
vegetables, as in the zod schema of `index.ts`). -/
inductive Crop where
  | maize | wheat | rice | beans | vegetables | tea | coffee
  | sorghum | millet | cassava | sweet_potato | potato
  | tomato | cabbage | kale | onion | banana | sugarcane
  | cowpea | pigeon_pea | groundnut | sunflower | cotton
deriving DecidableEq, Repr

/-- The crop's enumeration string. -/
def cropId : Crop → String
  | Crop.maize => "maize"
  | Crop.wheat => "wheat"
  | Crop.rice => "rice"
  | Crop.beans => "beans"
  | Crop.vegetables => "vegetables"
  | Crop.tea => "tea"
  | Crop.coffee => "coffee"
  | Crop.sorghum => "sorghum"
  | Crop.millet => "millet"
  | Crop.cassava => "cassava"
  | Crop.sweet_potato => "sweet_potato"
  | Crop.potato => "potato"
  | Crop.tomato => "tomato"
  | Crop.cabbage => "cabbage"
  | Crop.kale => "kale"
  | Crop.onion => "onion"
  | Crop.banana => "banana"
  | Crop.sugarcane => "sugarcane"
  | Crop.cowpea => "cowpea"
  | Crop.pigeon_pea => "pigeon_pea"
  | Crop.groundnut => "groundnut"
  | Crop.sunflower => "sunflower"
  | Crop.cotton => "cotton"

/-- `crop.toUpperCase()`. -/
def cropUpper : Crop → String
  | Crop.maize => "MAIZE"
  | Crop.wheat => "WHEAT"
  | Crop.rice => "RICE"
  | Crop.beans => "BEANS"
  | Crop.vegetables => "VEGETABLES"
  | Crop.tea => "TEA"
  | Crop.coffee => "COFFEE"
  | Crop.sorghum => "SORGHUM"
  | Crop.millet => "MILLET"
  | Crop.cassava => "CASSAVA"
  | Crop.sweet_potato => "SWEET_POTATO"
  | Crop.potato => "POTATO"
  | Crop.tomato => "TOMATO"
  | Crop.cabbage => "CABBAGE"
  | Crop.kale => "KALE"
  | Crop.onion => "ONION"
  | Crop.banana => "BANANA"
  | Crop.sugarcane => "SUGARCANE"
  | Crop.cowpea => "COWPEA"
  | Crop.pigeon_pea => "PIGEON_PEA"
  | Crop.groundnut => "GROUNDNUT"
  | Crop.sunflower => "SUNFLOWER"
  | Crop.cotton => "COTTON"

/-- `crop.toUpperCase().replace('_', ' ')`. -/
def cropUpperSpaced : Crop → String
  | Crop.sweet_potato => "SWEET POTATO"
  | Crop.pigeon_pea => "PIGEON PEA"
  | c => cropUpper c

/-- `crop.replace('_', ' ')`. -/
def cropSpaced : Crop → String
  | Crop.sweet_potato => "sweet potato"
  | Crop.pigeon_pea => "pigeon pea"
  | c => cropId c

/-! ### Window statistics

`Number(r.attr) || 0` reads an attribute of a daily record, yielding `0`
when the key is absent (then `Number(undefined)` is `NaN`, coerced to `0`
by `|| 0`). -/

/-- `Number(r[attr]) || 0` on a daily record. -/
def getNum (r : GAPMeasurementResult) (attr : String) : ℚ :=
  ((r.attrs.lookup attr).getD 0)

/-- `results.reduce((sum, r) => sum + (Number(r[attr]) || 0), 0)`. -/
def sumAttr (rs : List GAPMeasurementResult) (attr : String) : ℚ :=
  rs.foldl (fun sum r => sum + getNum r attr) 0

/-- The sum divided by `results.length` (window mean). -/
def meanAttr (rs : List GAPMeasurementResult) (attr : String) : ℚ :=
  sumAttr rs attr / (rs.length : ℚ)

/-! ### Tool 1: `get_weather_forecast` -/

/-- The per-day lines of the forecast listing: each attribute is printed
only when its key is present on the record (`'attr' in day`). -/
def weatherDayLines (day : GAPMeasurementResult) : String :=
  let t := "Date: " ++ (day.date ++ "\n")
  let t := match day.attrs.lookup "max_temperature" with
    | some q => t ++ ("  Max Temperature: " ++ (fix1 q ++ "°C\n"))
    | none => t
  let t := match day.attrs.lookup "min_temperature" with
    | some q => t ++ ("  Min Temperature: " ++ (fix1 q ++ "°C\n"))
    | none => t
  let t := match day.attrs.lookup "precipitation" with
    | some q => t ++ ("  Precipitation: " ++ (fix1 q ++ " mm\n"))
    | none => t
  let t := match day.attrs.lookup "relative_humidity" with
    | some q => t ++ ("  Humidity: " ++ (fix1 (q * 100) ++ "%\n"))
    | none => t
  let t := match day.attrs.lookup "wind_speed" with
    | some q => t ++ ("  Wind Speed: " ++ (fix1 q ++ " m/s\n"))
    | none => t
  t ++ "\n"

/-- The forecast header: `Weather Forecast for (lat, lon)` and the period. -/
def weatherHeader (lat lon : ℚ) (days : ℕ) : String :=
  "Weather Forecast for (" ++ (coordPair lat lon ++ (")\n" ++
    ("Period: " ++ (toString days ++ " days\n\n"))))

/-- The full success text of `get_weather_forecast` (the `forEach` append
loop is concatenation of the per-day blocks). -/
def weatherForecastText (lat lon : ℚ) (days : ℕ) (data : GAPResponse) : String :=
  weatherHeader lat lon days ++ String.join (data.results.map weatherDayLines)

/-- The `count === 0` message of `get_weather_forecast`. -/
def noWeatherDataText (lat lon : ℚ) : String :=
  "No weather data available for coordinates (" ++ (coordPair lat lon ++
    "). Please check if the coordinates are correct.")

/-- The `get_weather_forecast` handler.  The second component records the
`days` argument of the `gapClient.getForecast` call, `none` when the
client was never invoked. -/
def getWeatherForecastTool (latitude longitude defaultLatitude defaultLongitude : Option ℚ)
    (days : ℕ) (gapConfigured : Bool) (up : UpstreamOutcome) :
    ToolResult × Option ℕ :=
  match resolveCoord latitude defaultLatitude, resolveCoord longitude defaultLongitude with
  | some lat, some lon =>
      if gapConfigured then
        match getMeasurement up with
        | Except.error msg =>
            ({ text := "Error fetching weather forecast: " ++ msg, isError := true },
             some days)
        | Except.ok data =>
            if data.count = 0 then
              ({ text := noWeatherDataText lat lon, isError := false }, some days)
            else
              ({ text := weatherForecastText lat lon days data, isError := false },
               some days)
      else ({ text := tokenMissingText, isError := true }, none)
  | _, _ => ({ text := missingCoordsText, isError := true }, none)

/-! ### Tool 3: `get_planting_recommendation`

Each crop case of the switch produces its requirements block, pushes
reason strings, and may set the mutable `shouldPlant` flag (initially
`false`).  The evaluation is embedded as a function returning
`(requirements, reasons, shouldPlant)`. -/

/-- One crop case of the planting switch: requirements text, reason
lines, and the final value of the `shouldPlant` flag. -/
def plantingEval (crop : Crop) (avgTemp totalRainfall avgHumidity : ℚ) :
    String × List String × Bool :=
  match crop with
  | Crop.maize =>
      let req := "Maize Requirements:\n  - Optimal temperature: 18-27°C\n  - Minimum rainfall: 50mm per week during germination\n  - Soil should be moist but not waterlogged\n\n"
      let tr := if 18 ≤ avgTemp ∧ avgTemp ≤ 30 then
          (["✅ Temperature is suitable"], true)
        else (["❌ Temperature is not optimal"], false)
      let rr := if 30 ≤ totalRainfall ∧ totalRainfall ≤ 100 then
          ["✅ Rainfall is adequate"]
        else if totalRainfall < 30 then
          ["⚠️ Low rainfall - irrigation will be needed"]
        else ["⚠️ Very high rainfall - ensure good drainage"]
      (req, tr.1 ++ rr, tr.2)
  | Crop.wheat =>
      let req := "Wheat Requirements:\n  - Optimal temperature: 15-24°C\n  - Moderate moisture needed\n  - Cool season crop\n\n"
      let tr := if 15 ≤ avgTemp ∧ avgTemp ≤ 25 then
          (["✅ Temperature is suitable"], true)
        else (["❌ Temperature not ideal for wheat"], false)
      let rr := if 20 ≤ totalRainfall ∧ totalRainfall ≤ 60 then
          ["✅ Moisture levels are good"]
        else ["⚠️ Rainfall may not be optimal"]
      (req, tr.1 ++ rr, tr.2)
  | Crop.beans =>
      let req := "Beans Requirements:\n  - Optimal temperature: 18-24°C\n  - Moderate water needs\n  - Sensitive to waterlogging\n\n"
      let tr := if 16 ≤ avgTemp ∧ avgTemp ≤ 28 then
          (["✅ Temperature is suitable"], true)
        else (["❌ Temperature not optimal"], false)
      let rr := if 20 ≤ totalRainfall ∧ totalRainfall ≤ 70 then
          (["✅ Rainfall is appropriate"], tr.2)
        else if 70 < totalRainfall then
          (["⚠️ High rainfall - beans are sensitive to waterlogging"], false)
        else ([], tr.2)
      (req, tr.1 ++ rr.1, rr.2)
  | Crop.vegetables =>
      let req := "Vegetables (General) Requirements:\n  - Optimal temperature: 18-30°C (varies by type)\n  - Consistent moisture needed\n  - Regular watering important\n\n"
      let tr := if 15 ≤ avgTemp ∧ avgTemp ≤ 32 then
          (["✅ Temperature suitable for most vegetables"], true)
        else (["⚠️ Temperature may be challenging for vegetables"], false)
      let rr := if 15 ≤ totalRainfall then ["✅ Adequate moisture expected"] else []
      (req, tr.1 ++ rr, tr.2)
  | Crop.rice =>
      let req := "Rice Requirements:\n  - Optimal temperature: 20-35°C\n  - High water needs (flooded fields)\n  - Requires standing water\n\n"
      let tr := if 20 ≤ avgTemp ∧ avgTemp ≤ 35 then
          (["✅ Temperature is good for rice"], true)
        else (["❌ Temperature not ideal"], false)
      let rr := if 50 ≤ totalRainfall then
          ["✅ High rainfall suitable for rice cultivation"]
        else ["⚠️ Ensure adequate irrigation for rice paddies"]
      (req, tr.1 ++ rr, tr.2)
  | Crop.tea | Crop.coffee =>
      let req := cropUpper crop ++ " Requirements:\n  - Temperature: 18-25°C\n  - Well-distributed rainfall\n  - High humidity beneficial\n\n"
      let tr := if 18 ≤ avgTemp ∧ avgTemp ≤ 26 then
          (["✅ Temperature is suitable"], true)
        else (["⚠️ Temperature not ideal for " ++ cropId crop], false)
      let rr := if 6/10 ≤ avgHumidity then ["✅ Good humidity levels"] else []
      (req, tr.1 ++ rr, tr.2)
  | Crop.sorghum | Crop.millet =>
      let req := cropUpper crop ++ " Requirements:\n  - Optimal temperature: 25-35°C\n  - Drought-tolerant crop\n  - Low water requirements\n\n"
      let tr := if 22 ≤ avgTemp ∧ avgTemp ≤ 35 then
          (["✅ Temperature is suitable"], true)
        else (["❌ Temperature not optimal for " ++ cropId crop], false)
      let rr := if 15 ≤ totalRainfall then
          ["✅ Sufficient moisture for germination"]
        else ["⚠️ Consider irrigation for establishment"]
      (req, tr.1 ++ rr, tr.2)
  | Crop.cassava =>
      let req := "Cassava Requirements:\n  - Optimal temperature: 25-29°C\n  - Drought-tolerant once established\n  - Needs moisture for first 3 months\n\n"
      let tr := if 20 ≤ avgTemp ∧ avgTemp ≤ 32 then
          (["✅ Temperature is suitable"], true)
        else (["❌ Temperature not ideal"], false)
      let rr := if 40 ≤ totalRainfall then
          ["✅ Good rainfall for establishment"]
        else ["⚠️ Ensure irrigation during establishment phase"]
      (req, tr.1 ++ rr, tr.2)
  | Crop.sweet_potato | Crop.potato =>
      let req := cropUpperSpaced crop ++ " Requirements:\n  - Optimal temperature: 18-24°C\n  - Moderate water needs\n  - Well-drained soil essential\n\n"
      let tr := if 15 ≤ avgTemp ∧ avgTemp ≤ 27 then
          (["✅ Temperature is suitable"], true)
        else (["❌ Temperature not optimal"], false)
      let rr := if 30 ≤ totalRainfall ∧ totalRainfall ≤ 80 then
          ["✅ Rainfall is appropriate"]
        else if 80 < totalRainfall then
          ["⚠️ High rainfall - ensure good drainage"]
        else []
      (req, tr.1 ++ rr, tr.2)
  | Crop.tomato | Crop.cabbage | Crop.kale | Crop.onion =>
      let req := cropUpper crop ++ " Requirements:\n  - Optimal temperature: 18-25°C\n  - Regular moisture needed\n  - Avoid waterlogging\n\n"
      let tr := if 15 ≤ avgTemp ∧ avgTemp ≤ 28 then
          (["✅ Temperature suitable for vegetables"], true)
        else (["❌ Temperature may be challenging"], false)
      let rr := if 20 ≤ totalRainfall ∧ totalRainfall ≤ 60 then
          ["✅ Good moisture levels"]
        else if totalRainfall < 20 then
          ["⚠️ Plan for irrigation"]
        else []
      (req, tr.1 ++ rr, tr.2)
  | Crop.banana =>
      let req := "Banana Requirements:\n  - Optimal temperature: 26-30°C\n  - High water needs\n  - Continuous moisture preferred\n\n"
      let tr := if 22 ≤ avgTemp ∧ avgTemp ≤ 32 then
          (["✅ Temperature is suitable"], true)
        else (["❌ Temperature not ideal"], false)
      let rr := if 50 ≤ totalRainfall then
          ["✅ Good rainfall for bananas"]
        else ["⚠️ Plan for regular irrigation"]
      (req, tr.1 ++ rr, tr.2)
  | Crop.sugarcane =>
      let req := "Sugarcane Requirements:\n  - Optimal temperature: 20-30°C\n  - High water needs\n  - Long growing season (12-18 months)\n\n"
      let tr := if 20 ≤ avgTemp ∧ avgTemp ≤ 32 then
          (["✅ Temperature is suitable"], true)
        else (["❌ Temperature not optimal"], false)
      let rr := if 40 ≤ totalRainfall then
          ["✅ Good rainfall for establishment"]
        else ["⚠️ Ensure adequate irrigation"]
      (req, tr.1 ++ rr, tr.2)
  | Crop.cowpea | Crop.pigeon_pea | Crop.groundnut =>
      let req := cropUpperSpaced crop ++ " Requirements:\n  - Optimal temperature: 25-30°C\n  - Moderate water needs\n  - Drought-tolerant legume\n\n"
      let tr := if 20 ≤ avgTemp ∧ avgTemp ≤ 32 then
          (["✅ Temperature is suitable"], true)
        else (["❌ Temperature not ideal"], false)
      let rr := if 25 ≤ totalRainfall ∧ totalRainfall ≤ 70 then
          ["✅ Appropriate rainfall"]
        else if 70 < totalRainfall then
          ["⚠️ High rainfall - monitor for waterlogging"]
        else []
      (req, tr.1 ++ rr, tr.2)
  | Crop.sunflower =>
      let req := "Sunflower Requirements:\n  - Optimal temperature: 20-25°C\n  - Moderate water needs\n  - Tolerates some drought\n\n"
      let tr := if 18 ≤ avgTemp ∧ avgTemp ≤ 28 then
          (["✅ Temperature is suitable"], true)
        else (["❌ Temperature not optimal"], false)
      let rr := if 20 ≤ totalRainfall ∧ totalRainfall ≤ 60 then
          ["✅ Good rainfall conditions"]
        else []
      (req, tr.1 ++ rr, tr.2)
  | Crop.cotton =>
      let req := "Cotton Requirements:\n  - Optimal temperature: 21-27°C\n  - Moderate water during growth\n  - Dry conditions for harvest\n\n"
      let tr := if 20 ≤ avgTemp ∧ avgTemp ≤ 30 then
          (["✅ Temperature is suitable"], true)
        else (["❌ Temperature not optimal"], false)
      let rr := if 25 ≤ totalRainfall ∧ totalRainfall ≤ 70 then
          ["✅ Appropriate rainfall"]
        else []
      (req, tr.1 ++ rr, tr.2)

/-- The final value of the `shouldPlant` flag for a crop and the 7-day
window statistics. -/
def shouldPlantFor (crop : Crop) (avgTemp totalRainfall avgHumidity : ℚ) : Bool :=
  (plantingEval crop avgTemp totalRainfall avgHumidity).2.2

/-- The YES branch of the final recommendation. -/
def plantingYesText (crop : Crop) : String :=
  "✅ YES - Conditions are favorable for planting " ++ (cropId crop ++
    ("\n\n" ++ "Next Steps:\n  1. Prepare soil and ensure good drainage\n  2. Check seed quality\n  3. Plan for irrigation if rainfall is insufficient\n  4. Monitor weather updates regularly\n"))

/-- The WAIT branch of the final recommendation. -/
def plantingWaitText : String :=
  "⏳ WAIT - Conditions are not optimal at this time\n\nSuggestions:\n  1. Wait for better weather conditions\n  2. Consider alternative crops suited to current conditions\n  3. Check forecast again in a few days\n"

/-- `📋 RECOMMENDATION:` followed by the YES or WAIT block according to
the `shouldPlant` flag. -/
def plantingVerdictText (crop : Crop) (shouldPlant : Bool) : String :=
  "\n📋 RECOMMENDATION: " ++
    (if shouldPlant then plantingYesText crop else plantingWaitText)

/-- The full recommendation text for the resolved location and the 7-day
window statistics. -/
def plantingRecommendationText (crop : Crop)
    (lat lon avgTemp totalRainfall avgHumidity : ℚ) : String :=
  let intro := "🌱 Planting Recommendation for " ++ (cropUpper crop ++
    ("\n" ++ ("Location: (" ++ (coordPair lat lon ++ ")\n\n"))))
  let conditions := "Current Conditions (Next 7 days):\n" ++
    ("  Temperature: " ++ (fix1 avgTemp ++ ("°C\n" ++
    ("  Expected Rainfall: " ++ (fix1 totalRainfall ++ (" mm\n" ++
    ("  Humidity: " ++ (fix1 (avgHumidity * 100) ++ "%\n\n"))))))))
  let ev := plantingEval crop avgTemp totalRainfall avgHumidity
  let assessment := "Assessment:\n" ++
    String.join (ev.2.1.map (fun reason => "  " ++ (reason ++ "\n")))
  intro ++ (conditions ++ (ev.1 ++ (assessment ++
    plantingVerdictText crop ev.2.2)))

/-- The post-fetch part of `get_planting_recommendation`: the `count === 0`
check, then the statistics over `results.slice(0, 7)` and the
recommendation text. -/
def plantingFromData (crop : Crop) (lat lon : ℚ) (data : GAPResponse) :
    ToolResult :=
  if data.count = 0 then
    { text := "No data available for this location.", isError := false }
  else
    let firstWeek := data.results.take 7
    let avgTemp := meanAttr firstWeek "max_temperature"
    let totalRainfall := sumAttr firstWeek "precipitation"
    let avgHumidity := meanAttr firstWeek "relative_humidity"
    { text := plantingRecommendationText crop lat lon avgTemp totalRainfall avgHumidity,
      isError := false }

/-- The `get_planting_recommendation` handler.  The fetch is always
`getFarmingForecast(lat, lon, 14)`; the second component records the
`days` argument of that call (`none` when the client was never invoked). -/
def getPlantingRecommendationTool
    (latitude longitude defaultLatitude defaultLongitude : Option ℚ)
    (crop : Crop) (gapConfigured : Bool) (up : UpstreamOutcome) :
    ToolResult × Option ℕ :=
  match resolveCoord latitude defaultLatitude, resolveCoord longitude defaultLongitude with
  | some lat, some lon =>
      if gapConfigured then
        match getMeasurement up with
        | Except.error msg =>
            ({ text := "Error generating planting recommendation: " ++ msg,
               isError := true }, some 14)
        | Except.ok data => (plantingFromData crop lat lon data, some 14)
      else ({ text := tokenMissingText, isError := true }, none)
  | _, _ => ({ text := missingCoordsText, isError := true }, none)

/-! ### Tool 4: `get_irrigation_advisory` -/

/-- The `deficit ≤ 0` recommendation block. -/
def noIrrigationText : String :=
  "  ✅ NO IRRIGATION NEEDED - Rainfall is sufficient\n  - Natural rainfall will meet crop water needs\n  - Monitor soil moisture levels\n  - Resume irrigation if dry spell occurs\n"

/-- The `deficit < 20` recommendation block. -/
def lightIrrigationText (waterDeficit : ℚ) : String :=
  "  ⚠️ LIGHT IRRIGATION RECOMMENDED\n  - Supplement rainfall with light irrigation\n  - Apply approximately " ++
    (fix0 waterDeficit ++ (" mm this week\n" ++
      "  - 1-2 irrigation sessions should be sufficient\n"))

/-- The `deficit < 40` recommendation block. -/
def moderateIrrigationText (waterDeficit : ℚ) : String :=
  "  💧 MODERATE IRRIGATION NEEDED\n  - Regular irrigation required\n  - Apply approximately " ++
    (fix0 waterDeficit ++ (" mm this week\n" ++
      "  - Schedule 2-3 irrigation sessions\n"))

/-- The final (heavy) recommendation block. -/
def heavyIrrigationText (waterDeficit : ℚ) : String :=
  "  🚰 HEAVY IRRIGATION REQUIRED\n  - Significant water deficit expected\n  - Apply approximately " ++
    (fix0 waterDeficit ++ (" mm this week\n" ++
      ("  - Schedule 3-4 irrigation sessions\n" ++
       "  - Consider drip irrigation for efficiency\n")))

/-- The `if / else if` chain choosing the irrigation recommendation from
the (unclamped) water deficit. -/
def irrigationRecText (waterDeficit : ℚ) : String :=
  if waterDeficit ≤ 0 then noIrrigationText
  else if waterDeficit < 20 then lightIrrigationText waterDeficit
  else if waterDeficit < 40 then moderateIrrigationText waterDeficit
  else heavyIrrigationText waterDeficit

/-- `${waterDeficit > 0 ? waterDeficit.toFixed(1) : 0}` — the deficit as
displayed, clamped to `0`. -/
def deficitDisplay (waterDeficit : ℚ) : String :=
  if 0 < waterDeficit then fix1 waterDeficit else "0"

/-- `estimatedET = avgTemp * 0.6` over a 7-day window. -/
def estimatedETOf (rs : List GAPMeasurementResult) : ℚ :=
  meanAttr rs "max_temperature" * (6/10)

/-- `waterDeficit = estimatedET * 7 - totalRainfall` over a 7-day window. -/
def waterDeficitOf (rs : List GAPMeasurementResult) : ℚ :=
  estimatedETOf rs * 7 - sumAttr rs "precipitation"

/-- One line of the day-by-day irrigation guide. -/
def irrigationDayLine (day : GAPMeasurementResult) : String :=
  let precip := getNum day "precipitation"
  let maxTemp := getNum day "max_temperature"
  "  " ++ (day.date ++ (":\n" ++ ("    Rain: " ++ (fix1 precip ++
    (" mm, Temp: " ++ (fix1 maxTemp ++ "°C\n")))))) ++
  (if 10 ≤ precip then "    ✅ Skip irrigation - sufficient rain expected\n"
   else if 5 ≤ precip then "    ⚠️ Light irrigation if soil is dry\n"
   else if 30 < maxTemp then "    💧 Irrigate - hot and dry conditions\n"
   else "    💧 Irrigate if no recent rain\n")

/-- The closing tips block; rice gets a standing-water caveat instead of
the waterlogging caution. -/
def irrigationTips (crop : Option Crop) : String :=
  "\n💡 Irrigation Tips:\n  - Best time to irrigate: Early morning or evening\n  - Avoid midday irrigation (high evaporation)\n  - Check soil moisture before irrigating\n  - Ensure even water distribution\n" ++
  (if crop = some Crop.rice then "  - Maintain standing water for rice paddies\n"
   else "  - Avoid waterlogging (except for rice)\n")

/-- The post-fetch part of `get_irrigation_advisory`. -/
def irrigationFromData (crop : Option Crop) (lat lon : ℚ) (data : GAPResponse) :
    ToolResult :=
  if data.count = 0 then
    { text := "No data available for this location.", isError := false }
  else
    let results := data.results
    let totalRainfall := sumAttr results "precipitation"
    let avgTemp := meanAttr results "max_temperature"
    let avgHumidity := meanAttr results "relative_humidity"
    let estimatedET := avgTemp * (6/10)
    let waterDeficit := estimatedET * 7 - totalRainfall
    let header := "💧 Irrigation Advisory\n" ++ ("Location: (" ++
      (coordPair lat lon ++ ")\n")) ++
      ((match crop with
        | some c => "Crop: " ++ (cropUpper c ++ "\n")
        | none => "") ++ "\n")
    let summary := "7-Day Forecast Summary:\n  Expected Rainfall: " ++
      (fix1 totalRainfall ++ (" mm\n  Average Temperature: " ++
      (fix1 avgTemp ++ ("°C\n  Average Humidity: " ++
      (fix1 (avgHumidity * 100) ++ "%\n\n")))))
    let balance := "Water Balance:\n  Estimated Water Loss (ET): " ++
      (fix1 (estimatedET * 7) ++ (" mm/week\n  Expected Rainfall: " ++
      (fix1 totalRainfall ++ (" mm\n  Water Deficit: " ++
      (deficitDisplay waterDeficit ++ " mm\n\n")))))
    let recBlock := "🔧 Irrigation Recommendation:\n" ++
      irrigationRecText waterDeficit
    let dayGuide := "\n📅 Day-by-Day Irrigation Guide:\n" ++
      String.join (results.map irrigationDayLine)
    { text := header ++ (summary ++ (balance ++ (recBlock ++
        (dayGuide ++ irrigationTips crop)))),
      isError := false }

/-- The `get_irrigation_advisory` handler; the fetch is always
`getForecast(lat, lon, 7)`. -/
def getIrrigationAdvisoryTool
    (latitude longitude defaultLatitude defaultLongitude : Option ℚ)
    (crop : Option Crop) (gapConfigured : Bool) (up : UpstreamOutcome) :
    ToolResult × Option ℕ :=
  match resolveCoord latitude defaultLatitude, resolveCoord longitude defaultLongitude with
  | some lat, some lon =>
      if gapConfigured then
        match getMeasurement up with
        | Except.error msg =>
            ({ text := "Error generating irrigation advisory: " ++ msg,
               isError := true }, some 7)
        | Except.ok data => (irrigationFromData crop lat lon data, some 7)
      else ({ text := tokenMissingText, isError := true }, none)
  | _, _ => ({ text := missingCoordsText, isError := true }, none)

/-! ### Tool 2: `get_farming_advisory` -/

/-- The crop-specific advice block of the farming advisory (the crops
without a dedicated case fall to the generic `default` text). -/
def cropAdviceText (c : Crop) (avgMaxTemp totalPrecip : ℚ) : String :=
  match c with
  | Crop.maize =>
      "  - Optimal temp range: 18-27°C\n  - Water needs: Moderate to high\n" ++
      (if 18 ≤ avgMaxTemp ∧ avgMaxTemp ≤ 27 ∧ 30 ≤ totalPrecip then
        "  ✅ Conditions favorable for maize growth\n" else "")
  | Crop.wheat =>
      "  - Optimal temp range: 15-24°C\n  - Water needs: Moderate\n" ++
      (if 15 ≤ avgMaxTemp ∧ avgMaxTemp ≤ 24 then
        "  ✅ Good conditions for wheat\n" else "")
  | Crop.sorghum | Crop.millet =>
      "  - Heat-tolerant, ideal for drier conditions\n  - Optimal temp range: 25-35°C\n" ++
      (if 25 ≤ avgMaxTemp ∧ totalPrecip < 50 then
        "  ✅ Good conditions for " ++ (cropId c ++ "\n") else "")
  | Crop.cassava =>
      "  - Drought-tolerant once established\n  - Needs moisture in first 3 months\n  - Optimal temp: 25-29°C\n"
  | Crop.sweet_potato | Crop.potato =>
      "  - Prefers cool to moderate temperatures\n  - Monitor soil moisture carefully\n  - Optimal temp: 18-24°C\n"
  | Crop.tomato | Crop.cabbage | Crop.kale | Crop.onion =>
      "  - Regular moisture critical\n  - Watch for fungal diseases in high humidity\n  - Optimal temp: 18-25°C\n"
  | Crop.banana =>
      "  - High water needs year-round\n  - Protect from strong winds\n  - Optimal temp: 26-30°C\n"
  | Crop.tea | Crop.coffee =>
      "  - Needs well-distributed rainfall\n  - High humidity beneficial\n  - Optimal temp: 18-25°C\n"
  | Crop.cowpea | Crop.pigeon_pea | Crop.groundnut =>
      "  - Nitrogen-fixing legume\n  - Moderate water needs\n  - Optimal temp: 25-30°C\n"
  | Crop.vegetables =>
      "  - Most vegetables prefer 18-30°C\n  - Consistent moisture needed\n" ++
      (if 20 ≤ totalPrecip ∧ totalPrecip ≤ 60 then
        "  ✅ Good conditions for vegetable cultivation\n" else "")
  | Crop.rice | Crop.beans | Crop.sugarcane | Crop.sunflower | Crop.cotton =>
      "  - Consult local extension for specific advice\n"

/-- The post-fetch part of `get_farming_advisory`: window statistics over
the full returned series, banded recommendations, optional crop advice,
and the dry-day listing. -/
def farmingFromData (crop : Option Crop) (lat lon : ℚ) (forecastDays : ℕ)
    (data : GAPResponse) : ToolResult :=
  if data.count = 0 then
    { text := "No data available for this location.", isError := false }
  else
    let results := data.results
    let avgMaxTemp := meanAttr results "max_temperature"
    let avgMinTemp := meanAttr results "min_temperature"
    let totalPrecip := sumAttr results "precipitation"
    let avgHumidity := meanAttr results "relative_humidity"
    let header := "🌾 Agricultural Advisory for (" ++ (coordPair lat lon ++ ")\n") ++
      ((match crop with
        | some c => "Crop: " ++ (cropUpper c ++ "\n")
        | none => "") ++
       ("Forecast Period: " ++ (toString forecastDays ++ " days\n\n")))
    let summary := "📊 Weather Summary:\n  Average Max Temperature: " ++
      (fix1 avgMaxTemp ++ ("°C\n  Average Min Temperature: " ++
      (fix1 avgMinTemp ++ ("°C\n  Total Expected Rainfall: " ++
      (fix1 totalPrecip ++ (" mm\n  Average Humidity: " ++
      (fix1 (avgHumidity * 100) ++ "%\n\n")))))))
    let tempBlock :=
      if 35 < avgMaxTemp then
        "  ⚠️ High temperatures expected. Consider:\n     - Increase irrigation frequency\n     - Apply mulch to retain soil moisture\n     - Monitor for heat stress in crops\n"
      else if avgMaxTemp < 15 then
        "  ⚠️ Cool temperatures expected. Consider:\n     - Delay planting of warm-season crops\n     - Protect sensitive plants from cold\n"
      else "  ✅ Temperature conditions are favorable for most crops\n"
    let rainBlock :=
      if totalPrecip < 10 then
        "  ⚠️ Low rainfall expected. Action needed:\n     - Plan for supplemental irrigation\n     - Check soil moisture regularly\n     - Consider drought-resistant varieties\n"
      else if 100 < totalPrecip then
        "  ⚠️ Heavy rainfall expected. Take precautions:\n     - Ensure good drainage in fields\n     - Delay fertilizer application\n     - Monitor for fungal diseases\n"
      else "  ✅ Rainfall levels are adequate for normal farming activities\n"
    let cropBlock := match crop with
      | some c => "\n🌱 Specific advice for " ++ (cropSpaced c ++ ":\n") ++
          cropAdviceText c avgMaxTemp totalPrecip
      | none => ""
    let dryDays := results.filter (fun r => getNum r "precipitation" < 2)
    let bestDays := "\n📅 Best Days for Farming Activities:\n" ++
      (if 0 < dryDays.length then
        "  Good days for field work: " ++
          (String.intercalate ", " ((dryDays.take 3).map (fun d => d.date)) ++ "\n")
       else "")
    { text := header ++ (summary ++ ("💡 Recommendations:\n" ++
        (tempBlock ++ (rainBlock ++ (cropBlock ++ bestDays))))),
      isError := false }

/-- The `get_farming_advisory` handler; the fetch is
`getFarmingForecast(lat, lon, forecast_days)`. -/
def getFarmingAdvisoryTool
    (latitude longitude defaultLatitude defaultLongitude : Option ℚ)
    (crop : Option Crop) (forecastDays : ℕ) (gapConfigured : Bool)
    (up : UpstreamOutcome) : ToolResult × Option ℕ :=
  match resolveCoord latitude defaultLatitude, resolveCoord longitude defaultLongitude with
  | some lat, some lon =>
      if gapConfigured then
        match getMeasurement up with
        | Except.error msg =>
            ({ text := "Error generating farming advisory: " ++ msg,
               isError := true }, some forecastDays)
        | Except.ok data =>
            (farmingFromData crop lat lon forecastDays data, some forecastDays)
      else ({ text := tokenMissingText, isError := true }, none)
  | _, _ => ({ text := missingCoordsText, isError := true }, none)

/-! ### Auxiliary notions used by the statements -/

/-- `startsWith t s`: the character list `s` is an initial segment of `t`. -/
def startsWith : List Char → List Char → Bool
  | _, [] => true
  | [], _ :: _ => false
  | a :: t, b :: s => a == b && startsWith t s

/-- `hasSubList s t`: the character list `s` occurs contiguously in `t`. -/
def hasSubList (s : List Char) : List Char → Bool
  | [] => s.isEmpty
  | c :: t => startsWith (c :: t) s || hasSubList s t

/-- `strHas t s`: the string `s` occurs as a contiguous substring of `t`. -/
def strHas (t s : String) : Prop := hasSubList s.data t.data = true

instance (t s : String) : Decidable (strHas t s) :=
  inferInstanceAs (Decidable (_ = true))

/-- Observable equality of two daily records: same date and coordinates,
and the same value (or absence) for every attribute name.  The insertion
order of the attribute keys inside the JS object is not data. -/
def resultEquiv (a b : GAPMeasurementResult) : Prop :=
  a.date = b.date ∧ a.lat = b.lat ∧ a.lon = b.lon ∧
    ∀ attr : String, a.attrs.lookup attr = b.attrs.lookup attr

/-- Strict version of the record date order (used for sortedness
statements). -/
def byDateLt (a b : GAPMeasurementResult) : Prop := a.date < b.date

/-! ### Concrete sample data for the closed-form checks -/

/-- First ensemble sample of date `a`. -/
def sampleDp1 : GAPDataPoint := { datetime := "aT0", attrs := [("x", JsonVal.num 1)] }

/-- Second ensemble sample of date `a`. -/
def sampleDp2 : GAPDataPoint := { datetime := "aT1", attrs := [("x", JsonVal.num 3)] }

/-- A raw result group holding the two samples, at `[lon, lat] = [7, 6]`. -/
def sampleResult : GAPRawResult :=
  { geometry := { type := "Point", coordinates := [7, 6] },
    data := [sampleDp1, sampleDp2] }

/-- A raw response holding the one result group. -/
def sampleRaw : GAPRawResponse := { results := [sampleResult] }

/-- The aggregated record the sample produces: `x` averages to `2`. -/
def sampleRec : GAPMeasurementResult :=
  { date := "a", lat := 6, lon := 7, attrs := [("x", 2)] }

/-- A single hot dry day (max-temperature 30 °C, no precipitation). -/
def sampleHotDay : GAPMeasurementResult :=
  { date := "a", lat := 0, lon := 0, attrs := [("max_temperature", 30)] }

/-- The `GAPResponse` that `getMeasurement` wraps around a series (the
count is always the length of the results, pagination links `null`). -/
def mkResp (rs : List GAPMeasurementResult) : GAPResponse :=
  { results := rs, count := rs.length, next := none, previous := none }

/-- A 7-day series of identical sample records. -/
def sampleWeek7 : List GAPMeasurementResult := List.replicate 7 sampleRec

/-- The same series followed by an eighth, different day. -/
def sampleWeek8 : List GAPMeasurementResult := sampleWeek7 ++ [sampleHotDay]

/-- A day whose record carries no attributes at all. -/
def sampleBareDay : GAPMeasurementResult :=
  { date := "b", lat := 0, lon := 0, attrs := [] }

/-- A second raw result group at different coordinates. -/
def sampleResult2 : GAPRawResult :=
  { geometry := { type := "Point", coordinates := [9, 9] },
    data := [sampleDp1] }

/-- A raw response with two result groups. -/
def sampleRaw2 : GAPRawResponse := { results := [sampleResult, sampleResult2] }

/-! ## Lemmas about the aggregation engine -/

theorem insertKey_mem (acc : List String) (x a : String) :
    a ∈ insertKey acc x ↔ a ∈ acc ∨ a = x := by
  unfold insertKey
  by_cases h : x ∈ acc
  · rw [if_pos h]
    constructor
    · exact Or.inl
    · rintro (ha | rfl)
      · exact ha
      · exact h
  · rw [if_neg h]
    simp

theorem insertKey_nodup (acc : List String) (x : String) (h : acc.Nodup) :
    (insertKey acc x).Nodup := by
  unfold insertKey
  by_cases hx : x ∈ acc
  · simpa [hx]
  · simp [hx, h, List.nodup_append]

theorem mapKeys_aux_mem (data : List GAPDataPoint) :
    ∀ (acc : List String) (a : String),
      a ∈ data.foldl (fun acc dp => insertKey acc (dateOf dp)) acc ↔
        a ∈ acc ∨ a ∈ data.map dateOf := by
  induction data with
  | nil => simp
  | cons dp rest ih =>
      intro acc a
      simp only [List.foldl_cons, List.map_cons, List.mem_cons]
      rw [ih, insertKey_mem]
      tauto

theorem mapKeys_mem (data : List GAPDataPoint) (a : String) :
    a ∈ mapKeys data ↔ a ∈ data.map dateOf := by
  unfold mapKeys
  rw [mapKeys_aux_mem]
  simp

theorem mapKeys_aux_nodup (data : List GAPDataPoint) :
    ∀ acc : List String, acc.Nodup →
      (data.foldl (fun acc dp => insertKey acc (dateOf dp)) acc).Nodup := by
  induction data with
  | nil => exact fun acc h => h
  | cons dp rest ih =>
      intro acc h
      exact ih _ (insertKey_nodup acc (dateOf dp) h)

theorem mapKeys_nodup (data : List GAPDataPoint) : (mapKeys data).Nodup :=
  mapKeys_aux_nodup data [] List.nodup_nil

theorem addAttrs_mem (dp : GAPDataPoint) :
    ∀ (acc : List String) (a : String),
      a ∈ addAttrs acc dp ↔
        a ∈ acc ∨ (a ≠ "datetime" ∧ ∃ v, (a, v) ∈ dp.attrs) := by
  unfold addAttrs
  generalize dp.attrs = kvs
  induction kvs with
  | nil => simp
  | cons kv rest ih =>
      intro acc a
      simp only [List.foldl_cons]
      by_cases hdt : kv.1 = "datetime"
      · rw [if_pos hdt, ih]
        constructor
        · rintro (h | ⟨hne, v, hv⟩)
          · exact Or.inl h
          · exact Or.inr ⟨hne, v, List.mem_cons_of_mem _ hv⟩
        · rintro (h | ⟨hne, v, hv⟩)
          · exact Or.inl h
          · rcases List.mem_cons.mp hv with heq | hv2
            · exact absurd (by rw [← heq] at hdt; exact hdt) hne
            · exact Or.inr ⟨hne, v, hv2⟩
      · rw [if_neg hdt, ih]
        constructor
        · rintro (h | ⟨hne, v, hv⟩)
          · rcases (insertKey_mem acc kv.1 a).mp h with h2 | rfl
            · exact Or.inl h2
            · exact Or.inr ⟨hdt, kv.2, List.mem_cons_self _ _⟩
          · exact Or.inr ⟨hne, v, List.mem_cons_of_mem _ hv⟩
        · rintro (h | ⟨hne, v, hv⟩)
          · exact Or.inl ((insertKey_mem acc kv.1 a).mpr (Or.inl h))
          · rcases List.mem_cons.mp hv with heq | hv2
            · refine Or.inl ((insertKey_mem acc kv.1 a).mpr (Or.inr ?_))
              rw [← heq]
            · exact Or.inr ⟨hne, v, hv2⟩

theorem addAttrs_nodup (dp : GAPDataPoint) :
    ∀ acc : List String, acc.Nodup → (addAttrs acc dp).Nodup := by
  unfold addAttrs
  generalize dp.attrs = kvs
  induction kvs with
  | nil => exact fun acc h => h
  | cons kv rest ih =>
      intro acc h
      simp only [List.foldl_cons]
      by_cases hdt : kv.1 = "datetime"
      · rw [if_pos hdt]; exact ih acc h
      · rw [if_neg hdt]; exact ih _ (insertKey_nodup acc kv.1 h)

theorem attrNames_aux_mem (dps : List GAPDataPoint) :
    ∀ (acc : List String) (a : String),
      a ∈ dps.foldl addAttrs acc ↔
        a ∈ acc ∨ (a ≠ "datetime" ∧ ∃ dp ∈ dps, ∃ v, (a, v) ∈ dp.attrs) := by
  induction dps with
  | nil => simp
  | cons dp rest ih =>
      intro acc a
      simp only [List.foldl_cons]
      rw [ih, addAttrs_mem]
      constructor
      · rintro ((h | ⟨hne, v, hv⟩) | ⟨hne, dp2, hdp2, v, hv⟩)
        · exact Or.inl h
        · exact Or.inr ⟨hne, dp, List.mem_cons_self _ _, v, hv⟩
        · exact Or.inr ⟨hne, dp2, List.mem_cons_of_mem _ hdp2, v, hv⟩
      · rintro (h | ⟨hne, dp2, hdp2, v, hv⟩)
        · exact Or.inl (Or.inl h)
        · rcases List.mem_cons.mp hdp2 with rfl | hdp3
          · exact Or.inl (Or.inr ⟨hne, v, hv⟩)
          · exact Or.inr ⟨hne, dp2, hdp3, v, hv⟩

theorem attrNames_mem (dps : List GAPDataPoint) (a : String) :
    a ∈ attrNames dps ↔
      a ≠ "datetime" ∧ ∃ dp ∈ dps, ∃ v, (a, v) ∈ dp.attrs := by
  unfold attrNames
  rw [attrNames_aux_mem]
  simp

theorem attrNames_nodup (dps : List GAPDataPoint) : (attrNames dps).Nodup := by
  unfold attrNames
  have : ∀ acc : List String, acc.Nodup → (dps.foldl addAttrs acc).Nodup := by
    induction dps with
    | nil => exact fun acc h => h
    | cons dp rest ih => exact fun acc h => ih _ (addAttrs_nodup dp acc h)
  exact this [] List.nodup_nil

theorem collectVals_aux (attr : String) (dps : List GAPDataPoint) :
    ∀ acc : List ℚ,
      dps.foldl (fun acc dp => acc ++ dpNums dp attr) acc =
        acc ++ dps.flatMap (fun dp => dpNums dp attr) := by
  induction dps with
  | nil => simp
  | cons dp rest ih =>
      intro acc
      simp only [List.foldl_cons, List.flatMap_cons]
      rw [ih, List.append_assoc]

theorem collectVals_eq (dps : List GAPDataPoint) (attr : String) :
    collectVals dps attr = dps.flatMap (fun dp => dpNums dp attr) := by
  unfold collectVals
  rw [collectVals_aux]
  simp

theorem collectVals_perm {dps dps2 : List GAPDataPoint}
    (h : dps.Perm dps2) (attr : String) :
    (collectVals dps attr).Perm (collectVals dps2 attr) := by
  rw [collectVals_eq, collectVals_eq]
  exact List.Perm.flatMap_right _ h

theorem aggValue_perm {dps dps2 : List GAPDataPoint}
    (h : dps.Perm dps2) (attr : String) :
    aggValue dps attr = aggValue dps2 attr := by
  have hp := collectVals_perm h attr
  show (if 0 < (collectVals dps attr).length then
      some ((collectVals dps attr).sum / ((collectVals dps attr).length : ℚ)) else none) =
    (if 0 < (collectVals dps2 attr).length then
      some ((collectVals dps2 attr).sum / ((collectVals dps2 attr).length : ℚ)) else none)
  rw [hp.length_eq, hp.sum_eq]

theorem lookup_filterMapAgg (f : String → Option ℚ) :
    ∀ (names : List String), names.Nodup → ∀ a : String,
      (names.filterMap (fun n => (f n).map (fun q => (n, q)))).lookup a =
        if a ∈ names then f a else none := by
  intro names
  induction names with
  | nil => simp
  | cons n rest ih =>
      intro hnd a
      have hnotmem : n ∉ rest := (List.nodup_cons.mp hnd).1
      have hrest : rest.Nodup := (List.nodup_cons.mp hnd).2
      rw [List.filterMap_cons]
      rcases hfn : f n with _ | q
      · simp only [Option.map_none']
        rw [ih hrest a]
        by_cases han : a = n
        · subst han
          simp [hfn, hnotmem]
        · simp [han]
      · simp only [Option.map_some']
        rw [List.lookup_cons]
        by_cases han : a = n
        · subst han
          simp [hfn]
        · have hbeq : (a == n) = false := by simp [han]
          simp only [hbeq]
          rw [ih hrest a]
          simp [han]

theorem lookup_aggregateBucket (lat lon : ℚ) (d : String)
    (dps : List GAPDataPoint) (a : String) :
    (aggregateBucket lat lon d dps).attrs.lookup a =
      if a ∈ attrNames dps then aggValue dps a else none :=
  lookup_filterMapAgg (aggValue dps) (attrNames dps) (attrNames_nodup dps) a

theorem aggregateBucket_equiv (lat lon : ℚ) (d : String)
    {dps dps2 : List GAPDataPoint} (h : dps.Perm dps2) :
    resultEquiv (aggregateBucket lat lon d dps) (aggregateBucket lat lon d dps2) := by
  refine ⟨rfl, rfl, rfl, fun a => ?_⟩
  rw [lookup_aggregateBucket, lookup_aggregateBucket]
  have hmem : a ∈ attrNames dps ↔ a ∈ attrNames dps2 := by
    rw [attrNames_mem, attrNames_mem]
    constructor <;> rintro ⟨hne, dp, hdp, v, hv⟩
    · exact ⟨hne, dp, h.mem_iff.mp hdp, v, hv⟩
    · exact ⟨hne, dp, h.mem_iff.mpr hdp, v, hv⟩
  by_cases hm : a ∈ attrNames dps
  · rw [if_pos hm, if_pos (hmem.mp hm), aggValue_perm h]
  · rw [if_neg hm, if_neg (fun hc => hm (hmem.mpr hc))]

theorem bucketOf_perm {data data2 : List GAPDataPoint}
    (h : data.Perm data2) (d : String) :
    (bucketOf data d).Perm (bucketOf data2 d) :=
  h.filter _

instance : IsTotal GAPMeasurementResult byDateLe :=
  ⟨fun a b => le_total a.date b.date⟩

instance : IsTrans GAPMeasurementResult byDateLe :=
  ⟨fun _ _ _ hab hbc => le_trans hab hbc⟩

instance : IsAntisymm GAPMeasurementResult byDateLt :=
  ⟨fun a _ h1 h2 => absurd (lt_trans h1 h2) (lt_irrefl a.date)⟩

theorem sorted_lt_of_sorted_le_pairwise_ne {l : List GAPMeasurementResult}
    (hle : List.Sorted byDateLe l)
    (hne : List.Pairwise (fun a b => a.date ≠ b.date) l) :
    List.Sorted byDateLt l :=
  (List.Pairwise.and hle hne).imp (fun h => lt_of_le_of_ne h.1 h.2)

theorem insertionSort_map_dates (keys : List String) (hnd : keys.Nodup)
    (f : String → GAPMeasurementResult) (hf : ∀ k, (f k).date = k) :
    List.insertionSort byDateLe (keys.map f) =
      (List.insertionSort (fun a b : String => a ≤ b) keys).map f := by
  have hperm : (List.insertionSort byDateLe (keys.map f)).Perm
      ((List.insertionSort (fun a b : String => a ≤ b) keys).map f) :=
    (List.perm_insertionSort _ _).trans
      ((List.perm_insertionSort (fun a b : String => a ≤ b) keys).map f).symm
  have hmapne : List.Pairwise (fun a b : GAPMeasurementResult => a.date ≠ b.date)
      (keys.map f) := by
    refine List.Pairwise.map f (fun a b hab => ?_) hnd
    rw [hf a, hf b]; exact hab
  have hsortedkeys : List.Sorted (fun a b : String => a < b)
      (List.insertionSort (fun a b : String => a ≤ b) keys) := by
    refine List.Sorted.lt_of_le (List.sorted_insertionSort _ keys) ?_
    exact ((List.perm_insertionSort (fun a b : String => a ≤ b) keys).nodup_iff).mpr hnd
  refine List.eq_of_perm_of_sorted (r := byDateLt) hperm ?_ ?_
  · refine sorted_lt_of_sorted_le_pairwise_ne (List.sorted_insertionSort byDateLe _) ?_
    exact ((List.Perm.pairwise_iff (fun h => Ne.symm h)
      (List.perm_insertionSort byDateLe (keys.map f))).mpr hmapne)
  · refine List.Pairwise.map f (fun a b hab => ?_) hsortedkeys
    show (f a).date < (f b).date
    rw [hf a, hf b]; exact hab

theorem mapKeys_perm {data data2 : List GAPDataPoint} (h : data.Perm data2) :
    (mapKeys data).Perm (mapKeys data2) := by
  rw [List.perm_ext_iff_of_nodup (mapKeys_nodup data) (mapKeys_nodup data2)]
  intro a
  rw [mapKeys_mem, mapKeys_mem]
  exact (h.map dateOf).mem_iff

theorem sortKeys_eq {data data2 : List GAPDataPoint} (h : data.Perm data2) :
    List.insertionSort (fun a b : String => a ≤ b) (mapKeys data) =
      List.insertionSort (fun a b : String => a ≤ b) (mapKeys data2) := by
  refine List.eq_of_perm_of_sorted (r := fun a b : String => a ≤ b)
    ((List.perm_insertionSort _ _).trans
      ((mapKeys_perm h).trans (List.perm_insertionSort _ _).symm))
    (List.sorted_insertionSort _ _) (List.sorted_insertionSort _ _)

theorem transformData_eq (lat lon : ℚ) (data : List GAPDataPoint) :
    transformData lat lon data =
      (List.insertionSort (fun a b : String => a ≤ b) (mapKeys data)).map
        (fun d => aggregateBucket lat lon d (bucketOf data d)) := by
  unfold transformData
  exact insertionSort_map_dates (mapKeys data) (mapKeys_nodup data) _ (fun _ => rfl)

theorem mem_transformData {lat lon : ℚ} {data : List GAPDataPoint}
    {rec : GAPMeasurementResult} :
    rec ∈ transformData lat lon data ↔
      ∃ d ∈ mapKeys data, rec = aggregateBucket lat lon d (bucketOf data d) := by
  unfold transformData
  rw [List.mem_insertionSort, List.mem_map]
  constructor
  · rintro ⟨d, hd, rfl⟩
    exact ⟨d, hd, rfl⟩
  · rintro ⟨d, hd, rfl⟩
    exact ⟨d, hd, rfl⟩

theorem transformData_sorted (lat lon : ℚ) (data : List GAPDataPoint) :
    List.Sorted byDateLt (transformData lat lon data) := by
  rw [transformData_eq]
  have hnd : (List.insertionSort (fun a b : String => a ≤ b) (mapKeys data)).Nodup :=
    ((List.perm_insertionSort (fun a b : String => a ≤ b) (mapKeys data)).nodup_iff).mpr
      (mapKeys_nodup data)
  have hsorted : List.Sorted (fun a b : String => a < b)
      (List.insertionSort (fun a b : String => a ≤ b) (mapKeys data)) :=
    List.Sorted.lt_of_le (List.sorted_insertionSort _ _) hnd
  refine List.Pairwise.map _ (fun a b hab => ?_) hsorted
  exact hab

theorem lookup_mem_pairs :
    ∀ {l : List (String × JsonVal)} {a : String} {v : JsonVal},
      l.lookup a = some v → (a, v) ∈ l := by
  intro l
  induction l with
  | nil => intro a v h; simp [List.lookup] at h
  | cons kv rest ih =>
      obtain ⟨k, b⟩ := kv
      intro a v h
      rw [List.lookup_cons] at h
      cases hbeq : (a == k) with
      | true =>
          rw [hbeq] at h
          simp only [Option.some.injEq] at h
          have hak : a = k := by simpa using hbeq
          subst hak
          rw [← h]
          exact List.mem_cons_self _ _
      | false =>
          rw [hbeq] at h
          exact List.mem_cons_of_mem _ (ih h)

theorem aggregateBucket_date (lat lon : ℚ) (d : String)
    (dps : List GAPDataPoint) : (aggregateBucket lat lon d dps).date = d := rfl

theorem forall₂_resultEquiv_map {K : List String}
    {f g : String → GAPMeasurementResult}
    (h : ∀ d, resultEquiv (f d) (g d)) :
    List.Forall₂ resultEquiv (K.map f) (K.map g) := by
  induction K with
  | nil => exact List.Forall₂.nil
  | cons d rest ih => exact List.Forall₂.cons (h d) ih

theorem transformRaw_results_cons {raw : GAPRawResponse} {r0 : GAPRawResult}
    {rest : List GAPRawResult} (hres : raw.results = r0 :: rest) :
    (transformRaw raw).results =
      transformData (r0.geometry.coordinates.getD 1 0)
        (r0.geometry.coordinates.getD 0 0) r0.data := by
  unfold transformRaw
  rw [hres]

theorem startsWith_nil (l : List Char) : startsWith l [] = true := by
  cases l <;> rfl

theorem startsWith_append (s t : List Char) :
    startsWith (s ++ t) s = true := by
  induction s with
  | nil => simpa using startsWith_nil t
  | cons c s2 ih => simp [startsWith, ih]

theorem startsWith_extend :
    ∀ (x s : List Char), startsWith x s = true →
      ∀ y : List Char, startsWith (x ++ y) s = true := by
  intro x
  induction x with
  | nil =>
      intro s h y
      cases s with
      | nil => simpa using startsWith_nil y
      | cons b s2 => simp [startsWith] at h
  | cons c x2 ih =>
      intro s h y
      cases s with
      | nil => exact startsWith_nil _
      | cons b s2 =>
          simp only [startsWith, Bool.and_eq_true] at h
          simp only [List.cons_append, startsWith, Bool.and_eq_true]
          exact ⟨h.1, ih s2 h.2 y⟩

theorem hasSubList_here (s t : List Char) : hasSubList s (s ++ t) = true := by
  cases s with
  | nil =>
      cases t with
      | nil => rfl
      | cons c t2 => simp [hasSubList, startsWith]
  | cons c s2 =>
      simp only [List.cons_append, hasSubList, Bool.or_eq_true]
      exact Or.inl (by simpa [startsWith] using startsWith_append s2 t)

theorem hasSubList_append_left (s : List Char) :
    ∀ (x y : List Char), hasSubList s y = true →
      hasSubList s (x ++ y) = true := by
  intro x
  induction x with
  | nil => intro y h; simpa using h
  | cons c x2 ih =>
      intro y h
      simp only [List.cons_append, hasSubList, Bool.or_eq_true]
      exact Or.inr (ih y h)

theorem hasSubList_append_right (s : List Char) :
    ∀ (x y : List Char), hasSubList s x = true →
      hasSubList s (x ++ y) = true := by
  intro x
  induction x with
  | nil =>
      intro y h
      cases s with
      | nil => cases y with
        | nil => rfl
        | cons c t2 => simp [hasSubList, startsWith]
      | cons b s2 => simp [hasSubList, List.isEmpty] at h
  | cons c x2 ih =>
      intro y h
      simp only [hasSubList, Bool.or_eq_true] at h
      simp only [List.cons_append, hasSubList, Bool.or_eq_true]
      rcases h with h | h
      · exact Or.inl (startsWith_extend _ _ h y)
      · exact Or.inr (ih y h)

theorem strHas_suffix {y : String} {s : String} (x : String) (h : strHas y s) :
    strHas (x ++ y) s :=
  hasSubList_append_left s.data x.data y.data h

theorem strHas_inside {x : String} {s : String} (y : String) (h : strHas x s) :
    strHas (x ++ y) s :=
  hasSubList_append_right s.data x.data y.data h

theorem strHas_here (s t : String) : strHas (s ++ t) s :=
  hasSubList_here s.data t.data

theorem strHas_refl (s : String) : strHas s s := by
  have h := hasSubList_here s.data []
  simpa using h

/-! ## Claim theorems -/

/-- C1: for every raw upstream response, the aggregation of `getMeasurement`
gives, for each date bucket and each attribute, the arithmetic mean of all
numeric values collected by flattening every sample of that bucket (array
elements individually, scalars directly, non-numeric values dropped); a
bucket consisting of a single scalar sample aggregates to that scalar; and
an attribute whose collection is empty is absent from the emitted record. -/
theorem aggregation_daily_mean
    (raw : GAPRawResponse) (r0 : GAPRawResult) (rest : List GAPRawResult)
    (hres : raw.results = r0 :: rest)
    (hwf : ∀ dp ∈ r0.data, ∀ kv ∈ dp.attrs, kv.1 ≠ "datetime")
    (rec : GAPMeasurementResult) (hrec : rec ∈ (transformRaw raw).results)
    (attr : String) :
    (collectVals (bucketOf r0.data rec.date) attr = [] →
      rec.attrs.lookup attr = none) ∧
    (collectVals (bucketOf r0.data rec.date) attr ≠ [] →
      rec.attrs.lookup attr = some
        ((collectVals (bucketOf r0.data rec.date) attr).sum /
         ((collectVals (bucketOf r0.data rec.date) attr).length : ℚ))) ∧
    (∀ dp q, bucketOf r0.data rec.date = [dp] →
      dp.attrs.lookup attr = some (JsonVal.num q) →
      rec.attrs.lookup attr = some q) := by
  rw [transformRaw_results_cons hres] at hrec
  obtain ⟨d, hd, rfl⟩ := mem_transformData.mp hrec
  simp only [aggregateBucket_date]
  have hmean : collectVals (bucketOf r0.data d) attr ≠ [] →
      (aggregateBucket (r0.geometry.coordinates.getD 1 0)
        (r0.geometry.coordinates.getD 0 0) d (bucketOf r0.data d)).attrs.lookup attr =
      some ((collectVals (bucketOf r0.data d) attr).sum /
            ((collectVals (bucketOf r0.data d) attr).length : ℚ)) := by
    intro hne
    rw [lookup_aggregateBucket]
    have hmem : attr ∈ attrNames (bucketOf r0.data d) := by
      rw [collectVals_eq] at hne
      obtain ⟨dp, hdp, hnum⟩ : ∃ dp ∈ bucketOf r0.data d, dpNums dp attr ≠ [] := by
        by_contra hc
        push_neg at hc
        exact hne (List.flatMap_eq_nil_iff.mpr hc)
      rcases hlk : dp.attrs.lookup attr with _ | v
      · exact absurd (by unfold dpNums; rw [hlk]) hnum
      · have hv : (attr, v) ∈ dp.attrs := lookup_mem_pairs hlk
        have hdp2 : dp ∈ r0.data := (List.mem_filter.mp hdp).1
        exact (attrNames_mem _ _).mpr ⟨hwf dp hdp2 (attr, v) hv, dp, hdp, v, hv⟩
    rw [if_pos hmem]
    have hlen : 0 < (collectVals (bucketOf r0.data d) attr).length :=
      List.length_pos.mpr hne
    simp [aggValue, hlen]
  refine ⟨?_, hmean, ?_⟩
  · intro hnil
    rw [lookup_aggregateBucket]
    by_cases hm : attr ∈ attrNames (bucketOf r0.data d)
    · rw [if_pos hm]
      simp [aggValue, hnil]
    · rw [if_neg hm]
  · intro dp q hb hlk
    have h1 : collectVals (bucketOf r0.data d) attr = [q] := by
      rw [collectVals_eq, hb]
      simp [dpNums, hlk, numsOfVal]
    rw [hmean (by rw [h1]; simp), h1]
    norm_num

/-- C2: the aggregation of `getMeasurement` is invariant under any
permutation of the raw data-point array (each daily record keeps the same
date, coordinates and attribute values), and the produced series is
sorted strictly ascending by date with no two records sharing a date. -/
theorem aggregation_perm_invariant_sorted (lat lon : ℚ)
    (data data2 : List GAPDataPoint) (hp : data.Perm data2) :
    List.Forall₂ resultEquiv (transformData lat lon data)
      (transformData lat lon data2) ∧
    List.Sorted byDateLt (transformData lat lon data) ∧
    List.Pairwise (fun a b : GAPMeasurementResult => a.date ≠ b.date)
      (transformData lat lon data) := by
  refine ⟨?_, transformData_sorted lat lon data, ?_⟩
  · rw [transformData_eq, transformData_eq, sortKeys_eq hp]
    exact forall₂_resultEquiv_map
      (fun d => aggregateBucket_equiv lat lon d (bucketOf_perm hp d))
  · exact (transformData_sorted lat lon data).imp (fun h => ne_of_lt h)

/-- Concrete instantiation of `aggregation_daily_mean`: two ensemble
samples of the same date with `x = 1` and `x = 3` aggregate to the mean
`2`. -/
theorem aggregation_daily_mean_witness :
    (sampleRaw.results = sampleResult :: [] ∧
     (∀ dp ∈ sampleResult.data, ∀ kv ∈ dp.attrs, kv.1 ≠ "datetime") ∧
     sampleRec ∈ (transformRaw sampleRaw).results) ∧
    ((collectVals (bucketOf sampleResult.data sampleRec.date) "x" = [] →
        sampleRec.attrs.lookup "x" = none) ∧
     (collectVals (bucketOf sampleResult.data sampleRec.date) "x" ≠ [] →
        sampleRec.attrs.lookup "x" = some
          ((collectVals (bucketOf sampleResult.data sampleRec.date) "x").sum /
           ((collectVals (bucketOf sampleResult.data sampleRec.date) "x").length : ℚ))) ∧
     (∀ dp q, bucketOf sampleResult.data sampleRec.date = [dp] →
        dp.attrs.lookup "x" = some (JsonVal.num q) →
        sampleRec.attrs.lookup "x" = some q)) :=
  ⟨⟨rfl, by decide, by with_unfolding_all decide⟩,
   aggregation_daily_mean sampleRaw sampleResult [] rfl (by decide) sampleRec
     (by with_unfolding_all decide) "x"⟩

/-- Concrete instantiation of `aggregation_perm_invariant_sorted`:
swapping the two samples leaves the aggregated series unchanged. -/
theorem aggregation_perm_invariant_sorted_witness :
    ([sampleDp1, sampleDp2] : List GAPDataPoint).Perm [sampleDp2, sampleDp1] ∧
    (List.Forall₂ resultEquiv (transformData 6 7 [sampleDp1, sampleDp2])
        (transformData 6 7 [sampleDp2, sampleDp1]) ∧
     List.Sorted byDateLt (transformData 6 7 [sampleDp1, sampleDp2]) ∧
     List.Pairwise (fun a b : GAPMeasurementResult => a.date ≠ b.date)
        (transformData 6 7 [sampleDp1, sampleDp2])) :=
  ⟨List.Perm.swap sampleDp2 sampleDp1 [],
   aggregation_perm_invariant_sorted 6 7 [sampleDp1, sampleDp2]
     [sampleDp2, sampleDp1] (List.Perm.swap sampleDp2 sampleDp1 [])⟩

/-- C3: for beans, whenever the 7-day mean max-temperature lies in
`[16, 28]` and the 7-day total precipitation exceeds `70` mm, the verdict
is WAIT: the rainfall check overwrites the favorable flag that the
in-range temperature check had set (the reasons list shows the
temperature ✅ line followed by the rainfall ⚠️ line). -/
theorem beans_rainfall_override (avgTemp totalRainfall avgHumidity : ℚ)
    (ht1 : 16 ≤ avgTemp) (ht2 : avgTemp ≤ 28) (hr : 70 < totalRainfall) :
    shouldPlantFor Crop.beans avgTemp totalRainfall avgHumidity = false ∧
    (plantingEval Crop.beans avgTemp totalRainfall avgHumidity).2.1 =
      ["✅ Temperature is suitable",
       "⚠️ High rainfall - beans are sensitive to waterlogging"] ∧
    plantingVerdictText Crop.beans
        (shouldPlantFor Crop.beans avgTemp totalRainfall avgHumidity) =
      "\n📋 RECOMMENDATION: " ++ plantingWaitText := by
  have hcond : 16 ≤ avgTemp ∧ avgTemp ≤ 28 := ⟨ht1, ht2⟩
  have hc1 : ¬(20 ≤ totalRainfall ∧ totalRainfall ≤ 70) :=
    fun h => absurd hr (not_lt.mpr h.2)
  have hsp : shouldPlantFor Crop.beans avgTemp totalRainfall avgHumidity = false := by
    unfold shouldPlantFor plantingEval
    simp [hcond, hc1, hr]
  refine ⟨hsp, ?_, ?_⟩
  · unfold plantingEval
    simp [hcond, hc1, hr]
  · rw [hsp]
    rfl

/-- Concrete instantiation of `beans_rainfall_override` at mean
max-temperature 20 °C and total precipitation 85 mm. -/
theorem beans_rainfall_override_witness :
    ((16 : ℚ) ≤ 20 ∧ (20 : ℚ) ≤ 28 ∧ (70 : ℚ) < 85) ∧
    (shouldPlantFor Crop.beans 20 85 (1/2) = false ∧
     (plantingEval Crop.beans 20 85 (1/2)).2.1 =
       ["✅ Temperature is suitable",
        "⚠️ High rainfall - beans are sensitive to waterlogging"] ∧
     plantingVerdictText Crop.beans (shouldPlantFor Crop.beans 20 85 (1/2)) =
       "\n📋 RECOMMENDATION: " ++ plantingWaitText) :=
  ⟨⟨by norm_num, by norm_num, by norm_num⟩,
   beans_rainfall_override 20 85 (1/2) (by norm_num) (by norm_num) (by norm_num)⟩

/-- C4: the irrigation advisory computes `ET_daily` as the 7-day mean
max-temperature times 0.6 and the weekly deficit as `ET_daily × 7` minus
the total precipitation; the displayed deficit is `0` whenever the
computed deficit is non-positive, while the unclamped value selects the
tier: `≤ 0` no irrigation, `(0, 20)` light with 1-2 sessions, `[20, 40)`
moderate with 2-3 sessions, `≥ 40` heavy with 3-4 sessions. -/
theorem irrigation_deficit_tiers (rs : List GAPMeasurementResult)
    (_hne : rs ≠ []) :
    estimatedETOf rs = meanAttr rs "max_temperature" * (6/10) ∧
    waterDeficitOf rs = estimatedETOf rs * 7 - sumAttr rs "precipitation" ∧
    (waterDeficitOf rs ≤ 0 → deficitDisplay (waterDeficitOf rs) = "0") ∧
    (waterDeficitOf rs ≤ 0 →
      irrigationRecText (waterDeficitOf rs) = noIrrigationText) ∧
    (0 < waterDeficitOf rs → waterDeficitOf rs < 20 →
      irrigationRecText (waterDeficitOf rs) =
        lightIrrigationText (waterDeficitOf rs) ∧
      strHas (lightIrrigationText (waterDeficitOf rs))
        "1-2 irrigation sessions") ∧
    (20 ≤ waterDeficitOf rs → waterDeficitOf rs < 40 →
      irrigationRecText (waterDeficitOf rs) =
        moderateIrrigationText (waterDeficitOf rs) ∧
      strHas (moderateIrrigationText (waterDeficitOf rs))
        "2-3 irrigation sessions") ∧
    (40 ≤ waterDeficitOf rs →
      irrigationRecText (waterDeficitOf rs) =
        heavyIrrigationText (waterDeficitOf rs) ∧
      strHas (heavyIrrigationText (waterDeficitOf rs))
        "3-4 irrigation sessions") := by
  refine ⟨rfl, rfl, ?_, ?_, ?_, ?_, ?_⟩
  · intro h
    unfold deficitDisplay
    rw [if_neg (not_lt.mpr h)]
  · intro h
    unfold irrigationRecText
    rw [if_pos h]
  · intro h0 h20
    constructor
    · unfold irrigationRecText
      rw [if_neg (not_le.mpr h0), if_pos h20]
    · unfold lightIrrigationText
      refine strHas_suffix _ (strHas_suffix _ (strHas_suffix _ ?_))
      decide
  · intro h20 h40
    constructor
    · unfold irrigationRecText
      rw [if_neg (not_le.mpr (lt_of_lt_of_le (by norm_num) h20)),
        if_neg (not_lt.mpr h20), if_pos h40]
    · unfold moderateIrrigationText
      refine strHas_suffix _ (strHas_suffix _ (strHas_suffix _ ?_))
      decide
  · intro h40
    constructor
    · unfold irrigationRecText
      rw [if_neg (not_le.mpr (lt_of_lt_of_le (by norm_num) h40)),
        if_neg (not_lt.mpr (le_trans (by norm_num) h40)),
        if_neg (not_lt.mpr h40)]
    · unfold heavyIrrigationText
      refine strHas_suffix _ (strHas_suffix _ (strHas_suffix _ ?_))
      decide

/-- Concrete instantiation of `irrigation_deficit_tiers` on a single-day
series with max-temperature 30 °C and no precipitation (deficit 126). -/
theorem irrigation_deficit_tiers_witness :
    ([sampleHotDay] : List GAPMeasurementResult) ≠ [] ∧
    (estimatedETOf [sampleHotDay] =
       meanAttr [sampleHotDay] "max_temperature" * (6/10) ∧
     waterDeficitOf [sampleHotDay] =
       estimatedETOf [sampleHotDay] * 7 - sumAttr [sampleHotDay] "precipitation" ∧
     (waterDeficitOf [sampleHotDay] ≤ 0 →
       deficitDisplay (waterDeficitOf [sampleHotDay]) = "0") ∧
     (waterDeficitOf [sampleHotDay] ≤ 0 →
       irrigationRecText (waterDeficitOf [sampleHotDay]) = noIrrigationText) ∧
     (0 < waterDeficitOf [sampleHotDay] → waterDeficitOf [sampleHotDay] < 20 →
       irrigationRecText (waterDeficitOf [sampleHotDay]) =
         lightIrrigationText (waterDeficitOf [sampleHotDay]) ∧
       strHas (lightIrrigationText (waterDeficitOf [sampleHotDay]))
         "1-2 irrigation sessions") ∧
     (20 ≤ waterDeficitOf [sampleHotDay] → waterDeficitOf [sampleHotDay] < 40 →
       irrigationRecText (waterDeficitOf [sampleHotDay]) =
         moderateIrrigationText (waterDeficitOf [sampleHotDay]) ∧
       strHas (moderateIrrigationText (waterDeficitOf [sampleHotDay]))
         "2-3 irrigation sessions") ∧
     (40 ≤ waterDeficitOf [sampleHotDay] →
       irrigationRecText (waterDeficitOf [sampleHotDay]) =
         heavyIrrigationText (waterDeficitOf [sampleHotDay]) ∧
       strHas (heavyIrrigationText (waterDeficitOf [sampleHotDay]))
         "3-4 irrigation sessions")) :=
  ⟨by decide, irrigation_deficit_tiers [sampleHotDay] (by decide)⟩

/-- C5: the planting recommendation always fetches a 14-day forecast
(the caller supplies no window at all), and its verdict-deciding
statistics read only the first 7 entries of the returned series: two
series agreeing on their first 7 entries produce identical tool output. -/
theorem planting_window_fixed
    (latitude longitude dLat dLon : Option ℚ) (crop : Crop) (cfg : Bool)
    (up : UpstreamOutcome) (d : ℕ) (lat lon : ℚ)
    (rs rs2 : List GAPMeasurementResult) :
    ((getPlantingRecommendationTool latitude longitude dLat dLon crop cfg up).2 =
        some d → d = 14) ∧
    (resolveCoord latitude dLat = some lat →
     resolveCoord longitude dLon = some lon → cfg = true →
      (getPlantingRecommendationTool latitude longitude dLat dLon crop cfg up).2 =
        some 14) ∧
    (rs.take 7 = rs2.take 7 →
      plantingFromData crop lat lon (mkResp rs) =
        plantingFromData crop lat lon (mkResp rs2)) := by
  refine ⟨?_, ?_, ?_⟩
  · intro h
    unfold getPlantingRecommendationTool at h
    rcases h1 : resolveCoord latitude dLat with _ | a <;> rw [h1] at h
    · simp at h
    · rcases h2 : resolveCoord longitude dLon with _ | b <;> rw [h2] at h
      · simp at h
      · cases cfg
        · simp at h
        · rcases hm : getMeasurement up with msg | data <;> rw [hm] at h <;>
            simp at h <;> omega
  · intro h1 h2 h3
    unfold getPlantingRecommendationTool
    rw [h1, h2, h3]
    rcases getMeasurement up with msg | data <;> simp
  · intro ht
    have htake : ∀ l : List GAPMeasurementResult, l.take 7 = [] ↔ l = [] := by
      intro l
      rw [List.take_eq_nil_iff]
      simp
    by_cases hrs : rs = []
    · have hrs2 : rs2 = [] := by
        rw [← htake]
        rw [← ht, hrs]
        rfl
      rw [hrs, hrs2]
    · have hrs2 : rs2 ≠ [] := by
        intro hc
        apply hrs
        rw [← htake, ht, hc]
        rfl
      have hc1 : ¬(mkResp rs).count = 0 := by
        simpa [mkResp, List.length_eq_zero] using hrs
      have hc2 : ¬(mkResp rs2).count = 0 := by
        simpa [mkResp, List.length_eq_zero] using hrs2
      unfold plantingFromData
      rw [if_neg hc1, if_neg hc2]
      simp only [mkResp]
      rw [ht]

/-- Concrete instantiation of `planting_window_fixed`: with coordinates
resolved the fetch window is 14 days, and an 8-day series agrees with its
7-day truncation on the recommendation output. -/
theorem planting_window_fixed_witness :
    (getPlantingRecommendationTool (some 1) (some 36) none none Crop.maize true
        (UpstreamOutcome.success sampleRaw)).2 = some 14 ∧
    plantingFromData Crop.maize 1 36 (mkResp sampleWeek8) =
      plantingFromData Crop.maize 1 36 (mkResp sampleWeek7) :=
  ⟨(planting_window_fixed (some 1) (some 36) none none Crop.maize true
      (UpstreamOutcome.success sampleRaw) 14 1 36 sampleWeek8 sampleWeek7).2.1
      rfl rfl rfl,
   (planting_window_fixed (some 1) (some 36) none none Crop.maize true
      (UpstreamOutcome.success sampleRaw) 14 1 36 sampleWeek8 sampleWeek7).2.2
      (by decide)⟩

/-- C6: a raw response with zero result groups makes `getMeasurement`
return an empty series with count 0 (no exception), which the weather
tool reports as a non-error no-data message; a non-2xx HTTP response, in
contrast, raises an error that the tool reports with `isError` set. -/
theorem empty_results_no_data (raw : GAPRawResponse) (hempty : raw.results = [])
    (lat lon : ℚ) (dLat dLon : Option ℚ) (days st : ℕ) (stx body : String) :
    getMeasurement (UpstreamOutcome.success raw) =
      Except.ok { results := [], count := 0, next := none, previous := none } ∧
    ((getWeatherForecastTool (some lat) (some lon) dLat dLon days true
        (UpstreamOutcome.success raw)).1.isError = false ∧
     (getWeatherForecastTool (some lat) (some lon) dLat dLon days true
        (UpstreamOutcome.success raw)).1.text = noWeatherDataText lat lon) ∧
    (∃ msg, getMeasurement (UpstreamOutcome.httpFailure st stx body) =
      Except.error msg) ∧
    (getWeatherForecastTool (some lat) (some lon) dLat dLon days true
        (UpstreamOutcome.httpFailure st stx body)).1.isError = true := by
  have hmeas : getMeasurement (UpstreamOutcome.success raw) =
      Except.ok { results := [], count := 0, next := none, previous := none } := by
    show Except.ok (transformRaw raw) = _
    unfold transformRaw
    rw [hempty]
  refine ⟨hmeas, ⟨?_, ?_⟩, ⟨_, rfl⟩, ?_⟩
  · unfold getWeatherForecastTool
    rw [show resolveCoord (some lat) dLat = some lat from rfl,
      show resolveCoord (some lon) dLon = some lon from rfl, hmeas]
    rfl
  · unfold getWeatherForecastTool
    rw [show resolveCoord (some lat) dLat = some lat from rfl,
      show resolveCoord (some lon) dLon = some lon from rfl, hmeas]
    rfl
  · rfl

/-- Concrete instantiation of `empty_results_no_data` on an empty raw
response and a 500 upstream failure. -/
theorem empty_results_no_data_witness :
    (({ results := [] } : GAPRawResponse).results = []) ∧
    (getMeasurement (UpstreamOutcome.success { results := [] }) =
      Except.ok { results := [], count := 0, next := none, previous := none } ∧
    ((getWeatherForecastTool (some 1) (some 36) none none 7 true
        (UpstreamOutcome.success { results := [] })).1.isError = false ∧
     (getWeatherForecastTool (some 1) (some 36) none none 7 true
        (UpstreamOutcome.success { results := [] })).1.text =
       noWeatherDataText 1 36) ∧
    (∃ msg, getMeasurement
        (UpstreamOutcome.httpFailure 500 "Internal Server Error" "boom") =
      Except.error msg) ∧
    (getWeatherForecastTool (some 1) (some 36) none none 7 true
        (UpstreamOutcome.httpFailure 500 "Internal Server Error" "boom")).1.isError =
      true) :=
  ⟨rfl, empty_results_no_data { results := [] } rfl 1 36 none none 7 500
    "Internal Server Error" "boom"⟩

/-- C7: when neither explicit parameters nor header fallbacks provide a
coordinate, every one of the four tools returns the coordinate-prompt
error result with `isError` set, and the GAP client is never invoked
(the recorded fetch argument is `none`). -/
theorem missing_coordinates_no_call
    (latitude longitude dLat dLon : Option ℚ) (days fdays : ℕ)
    (crop : Crop) (cropOpt : Option Crop) (cfg : Bool) (up : UpstreamOutcome)
    (hmiss : resolveCoord latitude dLat = none ∨ resolveCoord longitude dLon = none) :
    getWeatherForecastTool latitude longitude dLat dLon days cfg up =
      ({ text := missingCoordsText, isError := true }, none) ∧
    getFarmingAdvisoryTool latitude longitude dLat dLon cropOpt fdays cfg up =
      ({ text := missingCoordsText, isError := true }, none) ∧
    getPlantingRecommendationTool latitude longitude dLat dLon crop cfg up =
      ({ text := missingCoordsText, isError := true }, none) ∧
    getIrrigationAdvisoryTool latitude longitude dLat dLon cropOpt cfg up =
      ({ text := missingCoordsText, isError := true }, none) := by
  have hnone : ∀ a b : Option ℚ, a = none ∨ b = none →
      (a = none) ∨ (∃ x, a = some x ∧ b = none) := by
    intro a b hab
    rcases hab with h | h
    · exact Or.inl h
    · rcases a with _ | x
      · exact Or.inl rfl
      · exact Or.inr ⟨x, rfl, h⟩
  rcases hnone _ _ hmiss with h | ⟨x, hx, h⟩
  · refine ⟨?_, ?_, ?_, ?_⟩
    · unfold getWeatherForecastTool
      rw [h]
    · unfold getFarmingAdvisoryTool
      rw [h]
    · unfold getPlantingRecommendationTool
      rw [h]
    · unfold getIrrigationAdvisoryTool
      rw [h]
  · refine ⟨?_, ?_, ?_, ?_⟩
    · unfold getWeatherForecastTool
      rw [hx, h]
    · unfold getFarmingAdvisoryTool
      rw [hx, h]
    · unfold getPlantingRecommendationTool
      rw [hx, h]
    · unfold getIrrigationAdvisoryTool
      rw [hx, h]

/-- Concrete instantiation of `missing_coordinates_no_call`: no explicit
parameters and no header fallback. -/
theorem missing_coordinates_no_call_witness :
    (resolveCoord none none = none ∨ resolveCoord none none = none) ∧
    (getWeatherForecastTool none none none none 7 true
        (UpstreamOutcome.success { results := [] }) =
      ({ text := missingCoordsText, isError := true }, none) ∧
     getFarmingAdvisoryTool none none none none none 14 true
        (UpstreamOutcome.success { results := [] }) =
      ({ text := missingCoordsText, isError := true }, none) ∧
     getPlantingRecommendationTool none none none none Crop.beans true
        (UpstreamOutcome.success { results := [] }) =
      ({ text := missingCoordsText, isError := true }, none) ∧
     getIrrigationAdvisoryTool none none none none none true
        (UpstreamOutcome.success { results := [] }) =
      ({ text := missingCoordsText, isError := true }, none)) :=
  ⟨Or.inl rfl,
   missing_coordinates_no_call none none none none 7 14 Crop.beans none true
     (UpstreamOutcome.success { results := [] }) (Or.inl rfl)⟩

theorem sumAttr_eq_map_sum (attr : String) (rs : List GAPMeasurementResult) :
    sumAttr rs attr = (rs.map (fun r => getNum r attr)).sum := by
  unfold sumAttr
  have haux : ∀ (l : List GAPMeasurementResult) (acc : ℚ),
      l.foldl (fun sum r => sum + getNum r attr) acc =
        acc + (l.map (fun r => getNum r attr)).sum := by
    intro l
    induction l with
    | nil => simp
    | cons r rest ih =>
        intro acc
        simp only [List.foldl_cons, List.map_cons, List.sum_cons]
        rw [ih, add_assoc]
  rw [haux]
  simp

theorem sumAttr_filter_isSome (attr : String) (rs : List GAPMeasurementResult) :
    sumAttr rs attr =
      sumAttr (rs.filter (fun r => (r.attrs.lookup attr).isSome)) attr := by
  rw [sumAttr_eq_map_sum, sumAttr_eq_map_sum]
  induction rs with
  | nil => rfl
  | cons r rest ih =>
      by_cases hp : (r.attrs.lookup attr).isSome
      · rw [List.filter_cons_of_pos (by simpa using hp)]
        simp only [List.map_cons, List.sum_cons]
        rw [ih]
      · rw [List.filter_cons_of_neg (by simpa using hp)]
        simp only [List.map_cons, List.sum_cons]
        have hzero : getNum r attr = 0 := by
          unfold getNum
          rw [Option.not_isSome_iff_eq_none.mp hp]
          rfl
        rw [hzero, ih, zero_add]

/-- C9: in the advisory window statistics, a day whose record lacks an
attribute contributes `0` to the sum while the divisor stays the full
number of returned days; hence when at least one day is missing the
attribute and the present values sum to a positive total (as for the
temperatures of the cited example), the computed mean is strictly lower
than the mean over only the days that carry the attribute. -/
theorem missing_attribute_counts_as_zero
    (rs : List GAPMeasurementResult) (attr : String)
    (hmiss : (rs.filter (fun r => (r.attrs.lookup attr).isSome)).length < rs.length)
    (hpos : 0 < sumAttr (rs.filter (fun r => (r.attrs.lookup attr).isSome)) attr) :
    sumAttr rs attr =
      sumAttr (rs.filter (fun r => (r.attrs.lookup attr).isSome)) attr ∧
    meanAttr rs attr =
      sumAttr (rs.filter (fun r => (r.attrs.lookup attr).isSome)) attr /
        (rs.length : ℚ) ∧
    meanAttr rs attr <
      meanAttr (rs.filter (fun r => (r.attrs.lookup attr).isSome)) attr := by
  have hsum := sumAttr_filter_isSome attr rs
  refine ⟨hsum, by rw [meanAttr, hsum], ?_⟩
  have hkpos : 0 < (rs.filter (fun r => (r.attrs.lookup attr).isSome)).length := by
    rcases List.eq_nil_or_concat (rs.filter (fun r => (r.attrs.lookup attr).isSome))
      with hnil | ⟨_, _, hcons⟩
    · rw [hnil] at hpos
      simp [sumAttr] at hpos
    · rw [hcons]
      simp
  unfold meanAttr
  rw [hsum]
  apply div_lt_div_of_pos_left hpos
  · exact_mod_cast hkpos
  · exact_mod_cast hmiss

/-- Concrete instantiation of `missing_attribute_counts_as_zero`: one
hot day plus one day with no attributes halve the mean (15 < 30). -/
theorem missing_attribute_counts_as_zero_witness :
    (([sampleHotDay, sampleBareDay].filter
        (fun r => (r.attrs.lookup "max_temperature").isSome)).length <
      ([sampleHotDay, sampleBareDay] : List GAPMeasurementResult).length ∧
     0 < sumAttr ([sampleHotDay, sampleBareDay].filter
        (fun r => (r.attrs.lookup "max_temperature").isSome)) "max_temperature") ∧
    (sumAttr [sampleHotDay, sampleBareDay] "max_temperature" =
       sumAttr ([sampleHotDay, sampleBareDay].filter
         (fun r => (r.attrs.lookup "max_temperature").isSome)) "max_temperature" ∧
     meanAttr [sampleHotDay, sampleBareDay] "max_temperature" =
       sumAttr ([sampleHotDay, sampleBareDay].filter
         (fun r => (r.attrs.lookup "max_temperature").isSome)) "max_temperature" /
         (([sampleHotDay, sampleBareDay] : List GAPMeasurementResult).length : ℚ) ∧
     meanAttr [sampleHotDay, sampleBareDay] "max_temperature" <
       meanAttr ([sampleHotDay, sampleBareDay].filter
         (fun r => (r.attrs.lookup "max_temperature").isSome)) "max_temperature") :=
  ⟨⟨by decide, by with_unfolding_all decide⟩,
   missing_attribute_counts_as_zero [sampleHotDay, sampleBareDay]
     "max_temperature" (by decide) (by with_unfolding_all decide)⟩

/-- C10: `getMeasurement` reads only the first result group — the whole
transformation is unchanged when every later group is dropped — and every
daily record is stamped with the first group's GeoJSON coordinates read
as `[longitude, latitude]`. -/
theorem first_result_only
    (raw : GAPRawResponse) (r0 : GAPRawResult) (rest : List GAPRawResult)
    (hres : raw.results = r0 :: rest) :
    transformRaw raw = transformRaw { results := [r0] } ∧
    (∀ lo la tail, r0.geometry.coordinates = lo :: la :: tail →
      ∀ rec ∈ (transformRaw raw).results, rec.lat = la ∧ rec.lon = lo) := by
  constructor
  · unfold transformRaw
    rw [hres]
  · intro lo la tail hco rec hrec
    rw [transformRaw_results_cons hres] at hrec
    obtain ⟨d, hd, rfl⟩ := mem_transformData.mp hrec
    constructor
    · show r0.geometry.coordinates.getD 1 0 = la
      rw [hco]
      rfl
    · show r0.geometry.coordinates.getD 0 0 = lo
      rw [hco]
      rfl

/-- Concrete instantiation of `first_result_only`: with two result
groups the output equals the output for the first group alone, and the
record is stamped `lat = 6`, `lon = 7` from `coordinates = [7, 6]`. -/
theorem first_result_only_witness :
    sampleRaw2.results = sampleResult :: [sampleResult2] ∧
    (transformRaw sampleRaw2 = transformRaw { results := [sampleResult] } ∧
     (sampleRec.lat = 6 ∧ sampleRec.lon = 7)) :=
  ⟨rfl,
   (first_result_only sampleRaw2 sampleResult [sampleResult2] rfl).1,
   (first_result_only sampleRaw2 sampleResult [sampleResult2] rfl).2 7 6 [] rfl
     sampleRec (by with_unfolding_all decide)⟩

/-- C8 refuted: at latitude 1 and longitude 36 the non-error no-data
response embeds the raw coordinates `(1, 36)` in its caller-facing text,
and on an upstream failure the tool text embeds the raw upstream error
body verbatim. -/
theorem coordinates_in_text_counterexample :
    ((getWeatherForecastTool (some 1) (some 36) none none 7 true
        (UpstreamOutcome.success { results := [] })).1.isError = false ∧
     strHas (getWeatherForecastTool (some 1) (some 36) none none 7 true
        (UpstreamOutcome.success { results := [] })).1.text
       ("(" ++ (coordPair 1 36 ++ ")"))) ∧
    ((getWeatherForecastTool (some 1) (some 36) none none 7 true
        (UpstreamOutcome.httpFailure 500 "Internal Server Error"
          "ECONNREFUSED 10.0.0.5")).1.isError = true ∧
     strHas (getWeatherForecastTool (some 1) (some 36) none none 7 true
        (UpstreamOutcome.httpFailure 500 "Internal Server Error"
          "ECONNREFUSED 10.0.0.5")).1.text "ECONNREFUSED 10.0.0.5") := by
  refine ⟨⟨rfl, ?_⟩, ⟨rfl, ?_⟩⟩
  · with_unfolding_all decide
  · with_unfolding_all decide

/-- C8 (amended): the tool boundary does catch every upstream failure
and flags it with `isError`, but the caller-facing text embeds the
resolved coordinates on every outcome, and on failure it embeds the
thrown error message — upstream status, status text and body included —
after the `Error fetching weather forecast:` prefix. -/
theorem tool_text_embeds_coordinates_and_error
    (lat lon : ℚ) (dLat dLon : Option ℚ) (days st : ℕ) (stx body : String)
    (raw : GAPRawResponse) :
    ((getWeatherForecastTool (some lat) (some lon) dLat dLon days true
        (UpstreamOutcome.httpFailure st stx body)).1.isError = true ∧
     (getWeatherForecastTool (some lat) (some lon) dLat dLon days true
        (UpstreamOutcome.httpFailure st stx body)).1.text =
       "Error fetching weather forecast: " ++ ("GAP API error: " ++
         (toString st ++ (" " ++ (stx ++ (" - " ++ body))))) ∧
     strHas (getWeatherForecastTool (some lat) (some lon) dLat dLon days true
        (UpstreamOutcome.httpFailure st stx body)).1.text body) ∧
    strHas (getWeatherForecastTool (some lat) (some lon) dLat dLon days true
        (UpstreamOutcome.success raw)).1.text (coordPair lat lon) := by
  refine ⟨⟨rfl, rfl, ?_⟩, ?_⟩
  · show strHas ("Error fetching weather forecast: " ++ ("GAP API error: " ++
      (toString st ++ (" " ++ (stx ++ (" - " ++ body)))))) body
    exact strHas_suffix _ (strHas_suffix _ (strHas_suffix _ (strHas_suffix _
      (strHas_suffix _ (strHas_suffix _ (strHas_refl body))))))
  · have hsplit : getWeatherForecastTool (some lat) (some lon) dLat dLon days
        true (UpstreamOutcome.success raw) =
        (if (transformRaw raw).count = 0 then
          ({ text := noWeatherDataText lat lon, isError := false }, some days)
        else
          ({ text := weatherForecastText lat lon days (transformRaw raw),
             isError := false }, some days)) := rfl
    by_cases h0 : (transformRaw raw).count = 0
    · rw [hsplit, if_pos h0]
      unfold noWeatherDataText
      exact strHas_suffix _ (strHas_here _ _)
    · rw [hsplit, if_neg h0]
      unfold weatherForecastText weatherHeader
      exact strHas_inside _ (strHas_suffix _ (strHas_here _ _))

end GapMcp
